import Mathlib

set_option maxRecDepth 16000

/-!
# Verification of the PrivateServiceRatings repository

Shallow embedding of the two FHEVM contracts of the repository:

* `src/contracts/PrivateListCheck.sol` — private membership check of an
  encrypted address against an encrypted whitelist/blacklist (`_scan`,
  `checkWhitelist`, `checkWhitelistPublic`, `removeFromWhitelist`, ...).
* `src/unnamed/part_002` (`PrivateServiceRatings.sol`) — private aggregated
  ratings (`initService`, `submitRating`, `makeAggregatesPublic`, `hasRated`).

The FHE coprocessor is modelled by `FheState`: ciphertext handles are
natural numbers allocated from a counter; each handle carries the plaintext
it encrypts (`plain`), the per-principal decryption grants (`allowedFor`),
the contract-self grant (`allowedThis`, i.e. `FHE.allowThis`), and the
public-decryptability flag (`pub`, i.e. `FHE.makePubliclyDecryptable`).
Every FHE operation (`FHE.eq`, `FHE.or`, `FHE.ge`, `FHE.le`, `FHE.and`,
`FHE.select`, `FHE.add`, `FHE.asEbool`, `FHE.asEuint32`,
`FHE.fromExternal`) allocates a fresh handle whose plaintext is the
operation applied to the plaintexts of the operands; `euint32` arithmetic is
taken modulo 2^32.  `require` failures of the Solidity code are modelled
with `Except Err`; a failing call reverts, i.e. leaves the contract state
unchanged, which the `...Tx` wrappers make explicit.
-/

/-- Modulus of the `euint32` ciphertext type. -/
def M32 : Nat := 2 ^ 32

/-- Modulus of the `eaddress` ciphertext type (160-bit addresses). -/
def MAddr : Nat := 2 ^ 160

/-- State of the FHE coprocessor and its access-control list. -/
structure FheState where
  nextHandle : Nat
  plain : Nat → Nat
  allowedFor : Nat → Nat → Bool
  allowedThis : Nat → Bool
  pub : Nat → Bool

/-- Allocate a fresh handle carrying plaintext `v`. -/
def FheState.fresh (f : FheState) (v : Nat) : Nat × FheState :=
  (f.nextHandle,
   { f with nextHandle := f.nextHandle + 1,
            plain := fun h => if h = f.nextHandle then v else f.plain h })

/-- Model of `FHE.asEbool` on a plaintext boolean constant. -/
def FheState.asEbool (f : FheState) (b : Bool) : Nat × FheState :=
  f.fresh (if b then 1 else 0)

/-- Model of `FHE.asEuint32` on a plaintext constant. -/
def FheState.asEuint32 (f : FheState) (v : Nat) : Nat × FheState :=
  f.fresh (v % M32)

/-- Model of `FHE.eq`: fresh ebool handle, 1 iff the plaintexts agree. -/
def FheState.eqH (f : FheState) (a b : Nat) : Nat × FheState :=
  f.fresh (if f.plain a = f.plain b then 1 else 0)

/-- Model of `FHE.or` of two ebool handles. -/
def FheState.orH (f : FheState) (a b : Nat) : Nat × FheState :=
  f.fresh (if f.plain a = 1 ∨ f.plain b = 1 then 1 else 0)

/-- Model of `FHE.ge` of two euint32 handles. -/
def FheState.geH (f : FheState) (a b : Nat) : Nat × FheState :=
  f.fresh (if f.plain b ≤ f.plain a then 1 else 0)

/-- Model of `FHE.le` of two euint32 handles. -/
def FheState.leH (f : FheState) (a b : Nat) : Nat × FheState :=
  f.fresh (if f.plain a ≤ f.plain b then 1 else 0)

/-- Model of `FHE.and` of two ebool handles. -/
def FheState.andH (f : FheState) (a b : Nat) : Nat × FheState :=
  f.fresh (if f.plain a = 1 ∧ f.plain b = 1 then 1 else 0)

/-- Model of `FHE.select c a b`: plaintext of `a` if `c` encrypts 1, else of `b`. -/
def FheState.selectH (f : FheState) (c a b : Nat) : Nat × FheState :=
  f.fresh (if f.plain c = 1 then f.plain a else f.plain b)

/-- Model of `FHE.add` of two euint32 handles, modulo 2^32. -/
def FheState.addH (f : FheState) (a b : Nat) : Nat × FheState :=
  f.fresh ((f.plain a + f.plain b) % M32)

/-- Model of `FHE.allow h p`: grant principal `p` decryption access to handle `h`. -/
def FheState.allow (f : FheState) (h : Nat) (p : Nat) : FheState :=
  { f with allowedFor := fun h2 p2 => if h2 = h ∧ p2 = p then true else f.allowedFor h2 p2 }

/-- Model of `FHE.allowThis h`: grant the contract itself access to handle `h`. -/
def FheState.allowThis (f : FheState) (h : Nat) : FheState :=
  { f with allowedThis := fun h2 => if h2 = h then true else f.allowedThis h2 }

/-- Model of `FHE.makePubliclyDecryptable h`. -/
def FheState.makePub (f : FheState) (h : Nat) : FheState :=
  { f with pub := fun h2 => if h2 = h then true else f.pub h2 }

/-- An external ciphertext input: the plaintext it encrypts and whether the
accompanying integrity proof verifies. -/
structure ExternalInput where
  value : Nat
  validProof : Bool

/-- The error kinds of the two contracts (the `require` messages). -/
inductive Err where
  | NotOwner
  | ZeroOwner
  | OutOfBounds
  | AlreadyRemoved
  | InvalidProof
  | SetNotFound
  | KeyNotInitialized
  | AlreadyContributed
  | NoLastResult
deriving DecidableEq

/-- Model of `FHE.fromExternal` for an `externalEaddress`: verifies the proof and
decodes a fresh handle. -/
def FheState.fromExternalAddr (f : FheState) (ext : ExternalInput) :
    Except Err (Nat × FheState) :=
  if ext.validProof then .ok (f.fresh (ext.value % MAddr)) else .error .InvalidProof

/-- Model of `FHE.fromExternal` for an `externalEuint32`. -/
def FheState.fromExternal32 (f : FheState) (ext : ExternalInput) :
    Except Err (Nat × FheState) :=
  if ext.validProof then .ok (f.fresh (ext.value % M32)) else .error .InvalidProof

/-- Whether an `Except` result succeeded. -/
def exceptOk {α : Type} : Except Err α → Bool
  | .ok _ => true
  | .error _ => false

/-! ## PrivateListCheck (src/contracts/PrivateListCheck.sol) -/

/-- A whitelist/blacklist entry: encrypted address handle and a soft-delete
flag (struct `Entry` of `PrivateListCheck`). -/
structure Entry where
  value : Nat
  active : Bool
deriving DecidableEq

/-- Storage of the `PrivateListCheck` contract. -/
structure ListCheckState where
  owner : Nat
  whitelist : List Entry
  blacklist : List Entry
  last : Nat
  hasLast : Bool
  fhe : FheState

/-- Loop body of `_scan`: iterate entries in index order, skip inactive
ones, fold `found = FHE.or(found, FHE.eq(query, entry.value))` and count
the scanned (active) entries. -/
def scanLoop (query : Nat) : List Entry → FheState → Nat → Nat → FheState × Nat × Nat
  | [], f, found, scanned => (f, found, scanned)
  | e :: rest, f, found, scanned =>
    if e.active then
      let (hit, f1) := f.eqH query e.value
      let (found2, f2) := f1.orH found hit
      scanLoop query rest f2 found2 (scanned + 1)
    else
      scanLoop query rest f found scanned

/-- Embedding of `_scan(set, query)`: start from `FHE.asEbool(false)`, fold the loop,
then `FHE.allowThis(found)`.  Returns the final FHE state, the `found`
handle and the `scanned` count. -/
def scan (set : List Entry) (query : Nat) (f : FheState) : FheState × Nat × Nat :=
  let (found0, f0) := f.asEbool false
  let r := scanLoop query set f0 found0 0
  (r.1.allowThis r.2.1, r.2.1, r.2.2)

/-- Embedding of `checkWhitelist(addrExt, proof)`: decode the query, `_scan` the
whitelist, grant the caller decryption access to the result, store it as
the last result.  Returns the `found` handle and the scanned count (the
count is carried by the `MembershipChecked` event in the source). -/
def checkWhitelist (s : ListCheckState) (sender : Nat) (ext : ExternalInput) :
    Except Err ((Nat × Nat) × ListCheckState) :=
  match s.fhe.fromExternalAddr ext with
  | .error e => .error e
  | .ok (q, f1) =>
    let r := scan s.whitelist q f1
    let f3 := r.1.allow r.2.1 sender
    .ok ((r.2.1, r.2.2), { s with fhe := f3, last := r.2.1, hasLast := true })

/-- Embedding of `checkWhitelistPublic(addrExt, proof)`: like `checkWhitelist` but the
result handle is made publicly decryptable instead of caller-granted. -/
def checkWhitelistPublic (s : ListCheckState) ( _sender : Nat) (ext : ExternalInput) :
    Except Err ((Nat × Nat) × ListCheckState) :=
  match s.fhe.fromExternalAddr ext with
  | .error e => .error e
  | .ok (q, f1) =>
    let r := scan s.whitelist q f1
    let f3 := r.1.makePub r.2.1
    .ok ((r.2.1, r.2.2), { s with fhe := f3, last := r.2.1, hasLast := true })

/-- Embedding of `addToWhitelist(addrExt, proof)` (onlyOwner): decode, `allowThis`,
push an active entry, return its index. -/
def addToWhitelist (s : ListCheckState) (sender : Nat) (ext : ExternalInput) :
    Except Err (Nat × ListCheckState) :=
  if sender ≠ s.owner then .error .NotOwner
  else match s.fhe.fromExternalAddr ext with
  | .error e => .error e
  | .ok (enc, f1) =>
    let f2 := f1.allowThis enc
    let wl := s.whitelist ++ [⟨enc, true⟩]
    .ok (wl.length - 1, { s with whitelist := wl, fhe := f2 })

/-- Embedding of `removeFromWhitelist(index)` (onlyOwner): `require(index < length)`,
`require(active)`, then soft-delete the entry. -/
def removeFromWhitelist (s : ListCheckState) (sender : Nat) (index : Nat) :
    Except Err ListCheckState :=
  if sender ≠ s.owner then .error .NotOwner
  else if hlt : index < s.whitelist.length then
    if (s.whitelist.get ⟨index, hlt⟩).active then
      .ok { s with whitelist :=
              s.whitelist.set index ⟨(s.whitelist.get ⟨index, hlt⟩).value, false⟩ }
    else .error .AlreadyRemoved
  else .error .OutOfBounds

/-- Embedding of `removeFromBlacklist(index)` (onlyOwner), same shape on the blacklist. -/
def removeFromBlacklist (s : ListCheckState) (sender : Nat) (index : Nat) :
    Except Err ListCheckState :=
  if sender ≠ s.owner then .error .NotOwner
  else if hlt : index < s.blacklist.length then
    if (s.blacklist.get ⟨index, hlt⟩).active then
      .ok { s with blacklist :=
              s.blacklist.set index ⟨(s.blacklist.get ⟨index, hlt⟩).value, false⟩ }
    else .error .AlreadyRemoved
  else .error .OutOfBounds

/-! ## PrivateServiceRatings (src/unnamed/part_002) -/

/-- Storage struct `Aggregates`: existence flag and the two `euint32`
accumulator handles. -/
structure Aggregates where
  svcExists : Bool
  sum : Nat
  count : Nat

/-- Storage of the `PrivateServiceRatings` contract: owner, the per-service
aggregates (`_svc`) and the plaintext duplicate guard (`_rated`). -/
structure RatingsState where
  owner : Nat
  svc : Nat → Aggregates
  rated : Nat → Nat → Bool
  fhe : FheState

/-- Embedding of `initService(serviceId)` (onlyOwner): mark the record existent and set
both accumulators to fresh encryptions of 0, `allowThis` both. -/
def initService (s : RatingsState) (sender : Nat) (serviceId : Nat) :
    Except Err RatingsState :=
  if sender ≠ s.owner then .error .NotOwner
  else
    let (sumH, f1) := s.fhe.asEuint32 0
    let (cntH, f2) := f1.asEuint32 0
    let f3 := (f2.allowThis sumH).allowThis cntH
    .ok { s with
          fhe := f3
          svc := fun k => if k = serviceId then ⟨true, sumH, cntH⟩ else s.svc k }

/-- Embedding of `makeAggregatesPublic(serviceId)` (onlyOwner): require the service
exists, re-derive `sum2 = FHE.add(sum, FHE.asEuint32 0)` and
`count2 = FHE.add(count, FHE.asEuint32 0)`, `allowThis` both, make both
publicly decryptable, store them back. -/
def makeAggregatesPublic (s : RatingsState) (sender : Nat) (serviceId : Nat) :
    Except Err RatingsState :=
  if sender ≠ s.owner then .error .NotOwner
  else if (s.svc serviceId).svcExists = false then .error .KeyNotInitialized
  else
    let A := s.svc serviceId
    let (z1, f1) := s.fhe.asEuint32 0
    let (sum2, f2) := f1.addH A.sum z1
    let (z2, f3) := f2.asEuint32 0
    let (count2, f4) := f3.addH A.count z2
    let f5 := (f4.allowThis sum2).allowThis count2
    let f6 := (f5.makePub sum2).makePub count2
    .ok { s with
          fhe := f6
          svc := fun k => if k = serviceId then ⟨true, sum2, count2⟩ else s.svc k }

/-- Embedding of `submitRating(serviceId, ratingExt, proof)`: require the service
exists and the sender has not rated; decode the rating; compute
`valid = (rating ≥ 1) ∧ (rating ≤ 5)`; add `select(valid, rating, 0)` to
`sum` and `select(valid, 1, 0)` to `count`; `allowThis` the new handles,
store them, grant the sender access to the stored accumulators; mark the
sender as having rated. -/
def submitRating (s : RatingsState) (sender : Nat) (serviceId : Nat) (ext : ExternalInput) :
    Except Err RatingsState :=
  if (s.svc serviceId).svcExists = false then .error .KeyNotInitialized
  else if s.rated serviceId sender then .error .AlreadyContributed
  else match s.fhe.fromExternal32 ext with
  | .error e => .error e
  | .ok (rating, f1) =>
    let A := s.svc serviceId
    let (c1, f2) := f1.asEuint32 1
    let (okLow, f3) := f2.geH rating c1
    let (c5, f4) := f3.asEuint32 5
    let (okHigh, f5) := f4.leH rating c5
    let (valid, f6) := f5.andH okLow okHigh
    let (z0, f7) := f6.asEuint32 0
    let (incVal, f8) := f7.selectH valid rating z0
    let (c1b, f9) := f8.asEuint32 1
    let (z0b, f10) := f9.asEuint32 0
    let (incCnt, f11) := f10.selectH valid c1b z0b
    let (newSum, f12) := f11.addH A.sum incVal
    let (newCount, f13) := f12.addH A.count incCnt
    let f14 := (f13.allowThis newSum).allowThis newCount
    let f15 := (f14.allow newSum sender).allow newCount sender
    .ok { s with
          fhe := f15
          svc := fun k => if k = serviceId then ⟨true, newSum, newCount⟩ else s.svc k
          rated := fun k p => if k = serviceId ∧ p = sender then true else s.rated k p }

/-- Ledger transaction semantics of `submitRating`: a failing call reverts,
leaving the state unchanged. -/
def submitRatingTx (s : RatingsState) (sender : Nat) (serviceId : Nat) (ext : ExternalInput) :
    RatingsState × Option Err :=
  match submitRating s sender serviceId ext with
  | .ok s2 => (s2, none)
  | .error e => (s, some e)

/-- View `hasRated(serviceId, user)`. -/
def hasRated (s : RatingsState) (serviceId : Nat) (user : Nat) : Bool :=
  s.rated serviceId user

/-- The empty FHE coprocessor state. -/
def fhe0 : FheState :=
  ⟨0, fun _ => 0, fun _ _ => false, fun _ => false, fun _ => false⟩

/-- A concrete whitelist state used by the witnesses: one active entry
whose handle 0 encrypts the address 5. -/
def fheW : FheState :=
  ⟨1, fun h => if h = 0 then 5 else 0, fun _ _ => false, fun _ => false, fun _ => false⟩

/-- Concrete contract state with whitelist `[⟨handle 0, active⟩]`. -/
def sW : ListCheckState := ⟨0, [⟨0, true⟩], [], 0, false, fheW⟩

/-- Concrete contract state with an empty whitelist. -/
def sE : ListCheckState := ⟨0, [], [], 0, false, fhe0⟩

/-- A concrete FHE state for the ratings witnesses: two handles (0, 1)
both encrypting 0. -/
def fheR : FheState := ⟨2, fun _ => 0, fun _ _ => false, fun _ => false, fun _ => false⟩

/-- Concrete ratings state: service 1 initialised (sum handle 0, count
handle 1), nobody has rated. -/
def sR : RatingsState :=
  ⟨0, fun k => if k = 1 then ⟨true, 0, 1⟩ else ⟨false, 0, 0⟩, fun _ _ => false, fheR⟩

/-- Concrete ratings state: like `sR` but principal 7 has already rated
service 1. -/
def sR2 : RatingsState :=
  ⟨0, fun k => if k = 1 then ⟨true, 0, 1⟩ else ⟨false, 0, 0⟩,
   fun k p => if k = 1 ∧ p = 7 then true else false, fheR⟩

/-- Embedding of `transferOwnership(newOwner)` (onlyOwner) of `PrivateServiceRatings`. -/
def transferOwnership (s : RatingsState) (sender newOwner : Nat) : Except Err RatingsState :=
  if sender ≠ s.owner then .error .NotOwner
  else if newOwner = 0 then .error .ZeroOwner
  else .ok { s with owner := newOwner }

/-- One successful transaction of the ratings contract, by any sender. -/
inductive RStep : RatingsState → RatingsState → Prop where
  | init (sender serviceId : Nat) (s s2 : RatingsState) :
      initService s sender serviceId = .ok s2 → RStep s s2
  | expose (sender serviceId : Nat) (s s2 : RatingsState) :
      makeAggregatesPublic s sender serviceId = .ok s2 → RStep s s2
  | submit (sender serviceId : Nat) (ext : ExternalInput) (s s2 : RatingsState) :
      submitRating s sender serviceId ext = .ok s2 → RStep s s2
  | transfer (sender newOwner : Nat) (s s2 : RatingsState) :
      transferOwnership s sender newOwner = .ok s2 → RStep s s2

/-- Reachability by any sequence of successful ratings transactions. -/
def RReach : RatingsState → RatingsState → Prop := Relation.ReflTransGen RStep

/-- Embedding of `checkBlacklist(addrExt, proof)`: decode the query,
`_scan` the blacklist, grant the caller decryption access to the result,
store it as the last result. -/
def checkBlacklist (s : ListCheckState) (sender : Nat) (ext : ExternalInput) :
    Except Err ((Nat × Nat) × ListCheckState) :=
  match s.fhe.fromExternalAddr ext with
  | .error e => .error e
  | .ok (q, f1) =>
    let r := scan s.blacklist q f1
    let f3 := r.1.allow r.2.1 sender
    .ok ((r.2.1, r.2.2), { s with fhe := f3, last := r.2.1, hasLast := true })

/-- Embedding of `checkBlacklistPublic(addrExt, proof)`: like
`checkBlacklist` but the result handle is made publicly decryptable. -/
def checkBlacklistPublic (s : ListCheckState) ( _sender : Nat) (ext : ExternalInput) :
    Except Err ((Nat × Nat) × ListCheckState) :=
  match s.fhe.fromExternalAddr ext with
  | .error e => .error e
  | .ok (q, f1) =>
    let r := scan s.blacklist q f1
    let f3 := r.1.makePub r.2.1
    .ok ((r.2.1, r.2.2), { s with fhe := f3, last := r.2.1, hasLast := true })

/-- Embedding of `addToBlacklist(addrExt, proof)` (onlyOwner): decode,
`allowThis`, push an active entry, return its index. -/
def addToBlacklist (s : ListCheckState) (sender : Nat) (ext : ExternalInput) :
    Except Err (Nat × ListCheckState) :=
  if sender ≠ s.owner then .error .NotOwner
  else match s.fhe.fromExternalAddr ext with
  | .error e => .error e
  | .ok (enc, f1) =>
    let f2 := f1.allowThis enc
    let bl := s.blacklist ++ [⟨enc, true⟩]
    .ok (bl.length - 1, { s with blacklist := bl, fhe := f2 })

/-- Embedding of `clearWhitelist()` (onlyOwner): drop all entries. -/
def clearWhitelist (s : ListCheckState) (sender : Nat) : Except Err ListCheckState :=
  if sender ≠ s.owner then .error .NotOwner
  else .ok { s with whitelist := [] }

/-- Embedding of `clearBlacklist()` (onlyOwner): drop all entries. -/
def clearBlacklist (s : ListCheckState) (sender : Nat) : Except Err ListCheckState :=
  if sender ≠ s.owner then .error .NotOwner
  else .ok { s with blacklist := [] }

/-- Embedding of `makeLastPublic()`: require a last result and mark it
publicly decryptable. -/
def makeLastPublic (s : ListCheckState) : Except Err ListCheckState :=
  if s.hasLast = false then .error .NoLastResult
  else .ok { s with fhe := s.fhe.makePub s.last }

/-- Embedding of `transferOwnership(newOwner)` (onlyOwner) of
`PrivateListCheck`. -/
def transferOwnershipL (s : ListCheckState) (sender newOwner : Nat) : Except Err ListCheckState :=
  if sender ≠ s.owner then .error .NotOwner
  else if newOwner = 0 then .error .ZeroOwner
  else .ok { s with owner := newOwner }

/-- One successful mutating transaction of the `PrivateListCheck`
contract, by any sender: add/remove/clear on either list, any of the four
membership checks, `makeLastPublic`, or an ownership transfer. -/
inductive LStep : ListCheckState → ListCheckState → Prop where
  | addW (sender : Nat) (ext : ExternalInput) (idx : Nat) (s s2 : ListCheckState) :
      addToWhitelist s sender ext = .ok (idx, s2) → LStep s s2
  | addB (sender : Nat) (ext : ExternalInput) (idx : Nat) (s s2 : ListCheckState) :
      addToBlacklist s sender ext = .ok (idx, s2) → LStep s s2
  | removeW (sender idx : Nat) (s s2 : ListCheckState) :
      removeFromWhitelist s sender idx = .ok s2 → LStep s s2
  | removeB (sender idx : Nat) (s s2 : ListCheckState) :
      removeFromBlacklist s sender idx = .ok s2 → LStep s s2
  | clearW (sender : Nat) (s s2 : ListCheckState) :
      clearWhitelist s sender = .ok s2 → LStep s s2
  | clearB (sender : Nat) (s s2 : ListCheckState) :
      clearBlacklist s sender = .ok s2 → LStep s s2
  | checkW (sender : Nat) (ext : ExternalInput) (r : Nat × Nat) (s s2 : ListCheckState) :
      checkWhitelist s sender ext = .ok (r, s2) → LStep s s2
  | checkWP (sender : Nat) (ext : ExternalInput) (r : Nat × Nat) (s s2 : ListCheckState) :
      checkWhitelistPublic s sender ext = .ok (r, s2) → LStep s s2
  | checkB (sender : Nat) (ext : ExternalInput) (r : Nat × Nat) (s s2 : ListCheckState) :
      checkBlacklist s sender ext = .ok (r, s2) → LStep s s2
  | checkBP (sender : Nat) (ext : ExternalInput) (r : Nat × Nat) (s s2 : ListCheckState) :
      checkBlacklistPublic s sender ext = .ok (r, s2) → LStep s s2
  | makeLast (s s2 : ListCheckState) :
      makeLastPublic s = .ok s2 → LStep s s2
  | transferL (sender newOwner : Nat) (s s2 : ListCheckState) :
      transferOwnershipL s sender newOwner = .ok s2 → LStep s s2

/-- Reachability by any sequence of successful `PrivateListCheck`
transactions. -/
def LReach : ListCheckState → ListCheckState → Prop := Relation.ReflTransGen LStep

/-- Invariant tracked after a soft-remove of the handle `v`: all
whitelist handles and `v` itself are below the allocation counter, and
every whitelist entry carrying `v` is inactive. -/
def RemovedInv (v : Nat) (s : ListCheckState) : Prop :=
  (∀ e ∈ s.whitelist, e.value < s.fhe.nextHandle) ∧
  v < s.fhe.nextHandle ∧
  (∀ e ∈ s.whitelist, e.value = v → e.active = false)

/-! ## Basic lemmas about the FHE model -/

theorem fresh_plain_ne (f : FheState) (v h : Nat) (hh : h ≠ f.nextHandle) :
    (f.fresh v).2.plain h = f.plain h := by
  simp [FheState.fresh, hh]

theorem fresh_plain_self (f : FheState) (v : Nat) :
    (f.fresh v).2.plain f.nextHandle = v := by
  simp [FheState.fresh]

/-- Congruence for the membership condition under a plaintext-map change
that preserves the plaintexts of the entries and of the query. -/
theorem exists_entry_congr {l : List Entry} {p1 p2 : Nat → Nat} {q1 q2 : Nat}
    (h : ∀ e ∈ l, p1 e.value = p2 e.value) (hq : q1 = q2) :
    (∃ e ∈ l, e.active = true ∧ p1 e.value = q1) ↔
      (∃ e ∈ l, e.active = true ∧ p2 e.value = q2) := by
  constructor
  · rintro ⟨e, hm, hact, heq⟩
    exact ⟨e, hm, hact, by rw [← h e hm, heq, hq]⟩
  · rintro ⟨e, hm, hact, heq⟩
    exact ⟨e, hm, hact, by rw [h e hm, heq, hq]⟩

/-- Full characterisation of the `_scan` loop: the final fhe state extends
the initial one (plaintexts of old handles preserved, grants untouched),
the result handle decrypts to 1 iff the accumulator did or some active
plaintext of an entry equals that of the query, and the scanned count adds the
number of active entries. -/
theorem scanLoop_spec (query : Nat) :
    ∀ (entries : List Entry) (f : FheState) (found scanned : Nat),
    query < f.nextHandle → found < f.nextHandle →
    (∀ e ∈ entries, e.value < f.nextHandle) →
    (f.plain found = 0 ∨ f.plain found = 1) →
    f.nextHandle ≤ (scanLoop query entries f found scanned).1.nextHandle ∧
    (∀ h, h < f.nextHandle → (scanLoop query entries f found scanned).1.plain h = f.plain h) ∧
    (scanLoop query entries f found scanned).2.1 < (scanLoop query entries f found scanned).1.nextHandle ∧
    ((scanLoop query entries f found scanned).1.plain (scanLoop query entries f found scanned).2.1 =
      if f.plain found = 1 ∨ ∃ e ∈ entries, e.active = true ∧ f.plain e.value = f.plain query
      then 1 else 0) ∧
    (scanLoop query entries f found scanned).2.2 = scanned + entries.countP (fun e => e.active) ∧
    (scanLoop query entries f found scanned).1.allowedFor = f.allowedFor ∧
    (scanLoop query entries f found scanned).1.allowedThis = f.allowedThis ∧
    (scanLoop query entries f found scanned).1.pub = f.pub := by
  intro entries
  induction entries with
  | nil =>
    intro f found scanned hq hf he hb
    refine ⟨Nat.le_refl _, fun h hh => rfl, hf, ?_, by simp [scanLoop], rfl, rfl, rfl⟩
    rcases hb with hb | hb <;> simp [scanLoop, hb]
  | cons e rest ih =>
    intro f found scanned hq hf he hb
    by_cases ha : e.active
    · have hstep : scanLoop query (e :: rest) f found scanned =
          scanLoop query rest ((f.eqH query e.value).2.orH found (f.eqH query e.value).1).2
            ((f.eqH query e.value).2.orH found (f.eqH query e.value).1).1 (scanned + 1) := by
        simp only [scanLoop, ha, if_true]
      have hfne : found ≠ f.nextHandle := Nat.ne_of_lt hf
      have h2next : (((f.eqH query e.value).2.orH found (f.eqH query e.value).1).2).nextHandle
          = f.nextHandle + 2 := rfl
      have h2fst : ((f.eqH query e.value).2.orH found (f.eqH query e.value).1).1
          = f.nextHandle + 1 := rfl
      have heqnext : (f.eqH query e.value).2.nextHandle = f.nextHandle + 1 := rfl
      have h2plainlt : ∀ h, h < f.nextHandle →
          (((f.eqH query e.value).2.orH found (f.eqH query e.value).1).2).plain h = f.plain h := by
        intro h hh
        have h1 : h ≠ f.nextHandle := Nat.ne_of_lt hh
        have h2 : h ≠ (f.eqH query e.value).2.nextHandle := by rw [heqnext]; omega
        calc (((f.eqH query e.value).2.orH found (f.eqH query e.value).1).2).plain h
            = (f.eqH query e.value).2.plain h := fresh_plain_ne _ _ _ h2
          _ = f.plain h := fresh_plain_ne _ _ _ h1
      have hval1 : (f.eqH query e.value).2.plain found = f.plain found :=
        fresh_plain_ne _ _ _ hfne
      have hval2 : (f.eqH query e.value).2.plain (f.eqH query e.value).1 =
          if f.plain query = f.plain e.value then 1 else 0 :=
        fresh_plain_self _ _
      have h2found : (((f.eqH query e.value).2.orH found (f.eqH query e.value).1).2).plain
            (((f.eqH query e.value).2.orH found (f.eqH query e.value).1).1) =
          if f.plain found = 1 ∨ f.plain e.value = f.plain query then 1 else 0 := by
        have e3 : (((f.eqH query e.value).2.orH found (f.eqH query e.value).1).2).plain
              (((f.eqH query e.value).2.orH found (f.eqH query e.value).1).1) =
            if (f.eqH query e.value).2.plain found = 1 ∨
               (f.eqH query e.value).2.plain (f.eqH query e.value).1 = 1 then 1 else 0 :=
          fresh_plain_self _ _
        rw [e3, hval1, hval2]
        by_cases hc : f.plain query = f.plain e.value
        · rw [if_pos hc, if_pos (Or.inr rfl), if_pos (Or.inr hc.symm)]
        · rw [if_neg hc]
          have hcs : ¬ f.plain e.value = f.plain query := fun hx => hc hx.symm
          by_cases hd : f.plain found = 1
          · rw [if_pos (Or.inl hd), if_pos (Or.inl hd)]
          · have t1 : ¬ (f.plain found = 1 ∨ (0 : Nat) = 1) := by
              rintro (h | h)
              · exact hd h
              · exact absurd h (by decide)
            have t2 : ¬ (f.plain found = 1 ∨ f.plain e.value = f.plain query) := by
              rintro (h | h)
              · exact hd h
              · exact hcs h
            rw [if_neg t1, if_neg t2]
      have hb2 : (((f.eqH query e.value).2.orH found (f.eqH query e.value).1).2).plain
            (((f.eqH query e.value).2.orH found (f.eqH query e.value).1).1) = 0 ∨
          (((f.eqH query e.value).2.orH found (f.eqH query e.value).1).2).plain
            (((f.eqH query e.value).2.orH found (f.eqH query e.value).1).1) = 1 := by
        rw [h2found]; split_ifs <;> simp
      have hq2 : query < (((f.eqH query e.value).2.orH found (f.eqH query e.value).1).2).nextHandle := by
        rw [h2next]; omega
      have hf2 : ((f.eqH query e.value).2.orH found (f.eqH query e.value).1).1 <
          (((f.eqH query e.value).2.orH found (f.eqH query e.value).1).2).nextHandle := by
        rw [h2next, h2fst]; omega
      have he2 : ∀ e2 ∈ rest, e2.value <
          (((f.eqH query e.value).2.orH found (f.eqH query e.value).1).2).nextHandle := by
        intro e2 hm
        have := he e2 (List.mem_cons_of_mem _ hm)
        rw [h2next]; omega
      have IH := ih ((f.eqH query e.value).2.orH found (f.eqH query e.value).1).2
        ((f.eqH query e.value).2.orH found (f.eqH query e.value).1).1 (scanned + 1)
        hq2 hf2 he2 hb2
      obtain ⟨IH1, IH2, IH3, IH4, IH5, IH6, IH7, IH8⟩ := IH
      rw [hstep]
      refine ⟨?_, ?_, IH3, ?_, ?_, ?_, ?_, ?_⟩
      · rw [h2next] at IH1; omega
      · intro h hh
        rw [IH2 h (by rw [h2next]; omega), h2plainlt h hh]
      · rw [IH4]
        have hcond1 : ((((f.eqH query e.value).2.orH found (f.eqH query e.value).1).2).plain
              (((f.eqH query e.value).2.orH found (f.eqH query e.value).1).1) = 1) ↔
            (f.plain found = 1 ∨ f.plain e.value = f.plain query) := by
          rw [h2found]; split_ifs with hA <;> simp [hA]
        have hexrw : (∃ e2 ∈ rest, e2.active = true ∧
              (((f.eqH query e.value).2.orH found (f.eqH query e.value).1).2).plain e2.value =
              (((f.eqH query e.value).2.orH found (f.eqH query e.value).1).2).plain query) ↔
            (∃ e2 ∈ rest, e2.active = true ∧ f.plain e2.value = f.plain query) :=
          exists_entry_congr
            (fun e2 hm => h2plainlt e2.value (he e2 (List.mem_cons_of_mem _ hm)))
            (h2plainlt query hq)
        have htarget : ((f.plain found = 1 ∨ f.plain e.value = f.plain query) ∨
              ∃ e2 ∈ rest, e2.active = true ∧ f.plain e2.value = f.plain query) ↔
            (f.plain found = 1 ∨
              ∃ e2 ∈ e :: rest, e2.active = true ∧ f.plain e2.value = f.plain query) := by
          constructor
          · rintro ((h | h) | ⟨e2, hm, hact, heq⟩)
            · exact Or.inl h
            · exact Or.inr ⟨e, List.mem_cons_self _ _, ha, h⟩
            · exact Or.inr ⟨e2, List.mem_cons_of_mem _ hm, hact, heq⟩
          · rintro (h | ⟨e2, hm, hact, heq⟩)
            · exact Or.inl (Or.inl h)
            · rcases List.mem_cons.mp hm with rfl | hm2
              · exact Or.inl (Or.inr heq)
              · exact Or.inr ⟨e2, hm2, hact, heq⟩
        exact if_congr ((or_congr hcond1 hexrw).trans htarget) rfl rfl
      · rw [IH5, List.countP_cons_of_pos _ _ (by simpa using ha)]; omega
      · rw [IH6]; rfl
      · rw [IH7]; rfl
      · rw [IH8]; rfl
    · have hstep : scanLoop query (e :: rest) f found scanned =
          scanLoop query rest f found scanned := by
        simp only [scanLoop, ha, if_false, Bool.false_eq_true]
      have IH := ih f found scanned hq hf
        (fun e2 hm => he e2 (List.mem_cons_of_mem _ hm)) hb
      obtain ⟨IH1, IH2, IH3, IH4, IH5, IH6, IH7, IH8⟩ := IH
      rw [hstep]
      refine ⟨IH1, IH2, IH3, ?_, ?_, IH6, IH7, IH8⟩
      · rw [IH4]
        have : (∃ e2 ∈ e :: rest, e2.active = true ∧ f.plain e2.value = f.plain query) ↔
            (∃ e2 ∈ rest, e2.active = true ∧ f.plain e2.value = f.plain query) := by
          constructor
          · rintro ⟨e2, hm, hact, heq⟩
            rcases List.mem_cons.mp hm with rfl | hm2
            · exact absurd hact (by simpa using ha)
            · exact ⟨e2, hm2, hact, heq⟩
          · rintro ⟨e2, hm, hact, heq⟩
            exact ⟨e2, List.mem_cons_of_mem _ hm, hact, heq⟩
        exact if_congr (or_congr Iff.rfl this.symm) rfl rfl
      · rw [IH5, List.countP_cons_of_neg]
        simpa using ha

theorem allowThis_self (f : FheState) (h : Nat) : (f.allowThis h).allowedThis h = true := by
  simp [FheState.allowThis]

theorem allowThis_ne (f : FheState) (h h2 : Nat) (hne : h2 ≠ h) :
    (f.allowThis h).allowedThis h2 = f.allowedThis h2 := by
  simp [FheState.allowThis, hne]

theorem allow_self (f : FheState) (h p : Nat) : (f.allow h p).allowedFor h p = true := by
  simp [FheState.allow]

theorem makePub_self (f : FheState) (h : Nat) : (f.makePub h).pub h = true := by
  simp [FheState.makePub]

theorem makePub_mono (f : FheState) (h h2 : Nat) (hp : f.pub h2 = true) :
    (f.makePub h).pub h2 = true := by
  by_cases hc : h2 = h <;> simp [FheState.makePub, hc, hp]

/-- Characterisation of `_scan`: the result handle decrypts to 1 iff some
plaintext of an active entry equals the query plaintext; the scanned count is
the number of active entries; the contract is granted access to the result;
old handles, other grants and public flags are untouched. -/
theorem scan_spec (set : List Entry) (query : Nat) (f : FheState)
    (hq : query < f.nextHandle) (he : ∀ e ∈ set, e.value < f.nextHandle) :
    f.nextHandle ≤ (scan set query f).1.nextHandle ∧
    (∀ h, h < f.nextHandle → (scan set query f).1.plain h = f.plain h) ∧
    (scan set query f).2.1 < (scan set query f).1.nextHandle ∧
    ((scan set query f).1.plain (scan set query f).2.1 =
      if ∃ e ∈ set, e.active = true ∧ f.plain e.value = f.plain query then 1 else 0) ∧
    (scan set query f).2.2 = set.countP (fun e => e.active) ∧
    (scan set query f).1.allowedThis (scan set query f).2.1 = true ∧
    (∀ h, h ≠ (scan set query f).2.1 →
      (scan set query f).1.allowedThis h = f.allowedThis h) ∧
    (scan set query f).1.allowedFor = f.allowedFor ∧
    (scan set query f).1.pub = f.pub := by
  have hb0 : (f.asEbool false).2.plain (f.asEbool false).1 = 0 := fresh_plain_self f 0
  have hnext0 : (f.asEbool false).2.nextHandle = f.nextHandle + 1 := rfl
  obtain ⟨S1, S2, S3, S4, S5, S6, S7, S8⟩ :=
    scanLoop_spec query set (f.asEbool false).2 (f.asEbool false).1 0
      (by rw [hnext0]; omega)
      (by rw [hnext0]; exact Nat.lt_succ_self _)
      (fun e hm => by have := he e hm; rw [hnext0]; omega)
      (Or.inl hb0)
  have hpe : ∀ e ∈ set, (f.asEbool false).2.plain e.value = f.plain e.value :=
    fun e hm => fresh_plain_ne f 0 e.value (Nat.ne_of_lt (he e hm))
  have hpq : (f.asEbool false).2.plain query = f.plain query :=
    fresh_plain_ne f 0 query (Nat.ne_of_lt hq)
  have hcond : ((f.asEbool false).2.plain (f.asEbool false).1 = 1 ∨
      ∃ e ∈ set, e.active = true ∧
        (f.asEbool false).2.plain e.value = (f.asEbool false).2.plain query) ↔
      (∃ e ∈ set, e.active = true ∧ f.plain e.value = f.plain query) := by
    rw [hb0]
    constructor
    · rintro (h | h)
      · exact absurd h (by decide)
      · exact (exists_entry_congr hpe hpq).mp h
    · intro h
      exact Or.inr ((exists_entry_congr hpe hpq).mpr h)
  refine ⟨?_, ?_, S3, ?_, ?_, ?_, ?_, ?_, ?_⟩
  · exact le_trans (by rw [hnext0]; omega) S1
  · intro h hh
    have h1 := S2 h (by rw [hnext0]; omega)
    have h2 : (f.asEbool false).2.plain h = f.plain h :=
      fresh_plain_ne f 0 h (Nat.ne_of_lt hh)
    exact h1.trans h2
  · show (scanLoop query set (f.asEbool false).2 (f.asEbool false).1 0).1.plain
        (scanLoop query set (f.asEbool false).2 (f.asEbool false).1 0).2.1 = _
    rw [S4]
    exact if_congr hcond rfl rfl
  · simpa using S5
  · exact allowThis_self _ _
  · intro h hne
    calc (scan set query f).1.allowedThis h
        = (scanLoop query set (f.asEbool false).2 (f.asEbool false).1 0).1.allowedThis h :=
          allowThis_ne _ _ _ hne
      _ = (f.asEbool false).2.allowedThis h := by rw [S7]
      _ = f.allowedThis h := rfl
  · exact S6
  · exact S8

/-- Characterisation of `checkWhitelist` on a validly-proven query: the
call succeeds, the result decrypts to 1 iff the plaintext of some active
whitelist entry equals the query plaintext, the scanned count is the number of
active entries, the contract and the caller are granted access to the
result, the result is cached as the last result, and the whitelist, owner
and public flags are untouched. -/
theorem checkWhitelist_spec (s : ListCheckState) (sender : Nat) (ext : ExternalInput)
    (hwf : ∀ e ∈ s.whitelist, e.value < s.fhe.nextHandle)
    (hp : ext.validProof = true) :
    ∃ res cnt s2, checkWhitelist s sender ext = .ok ((res, cnt), s2) ∧
      (s2.fhe.plain res =
        if ∃ e ∈ s.whitelist, e.active = true ∧ s.fhe.plain e.value = ext.value % MAddr
        then 1 else 0) ∧
      cnt = s.whitelist.countP (fun e => e.active) ∧
      s2.fhe.allowedThis res = true ∧
      s2.fhe.allowedFor res sender = true ∧
      s2.last = res ∧ s2.hasLast = true ∧
      s2.whitelist = s.whitelist ∧ s2.owner = s.owner ∧
      s2.fhe.pub = s.fhe.pub := by
  have hfe : s.fhe.fromExternalAddr ext = .ok (s.fhe.fresh (ext.value % MAddr)) := by
    simp [FheState.fromExternalAddr, hp]
  obtain ⟨T1, T2, T3, T4, T5, T6, T7, T8, T9⟩ :=
    scan_spec s.whitelist (s.fhe.fresh (ext.value % MAddr)).1 (s.fhe.fresh (ext.value % MAddr)).2
      (Nat.lt_succ_self _)
      (fun e hm => Nat.lt_succ_of_lt (hwf e hm))
  have hcond : (∃ e ∈ s.whitelist, e.active = true ∧
      (s.fhe.fresh (ext.value % MAddr)).2.plain e.value =
        (s.fhe.fresh (ext.value % MAddr)).2.plain (s.fhe.fresh (ext.value % MAddr)).1) ↔
      (∃ e ∈ s.whitelist, e.active = true ∧ s.fhe.plain e.value = ext.value % MAddr) :=
    exists_entry_congr
      (fun e hm => fresh_plain_ne _ _ _ (Nat.ne_of_lt (hwf e hm)))
      (fresh_plain_self _ _)
  refine ⟨(scan s.whitelist (s.fhe.fresh (ext.value % MAddr)).1
            (s.fhe.fresh (ext.value % MAddr)).2).2.1,
          (scan s.whitelist (s.fhe.fresh (ext.value % MAddr)).1
            (s.fhe.fresh (ext.value % MAddr)).2).2.2,
          { s with
            fhe := (scan s.whitelist (s.fhe.fresh (ext.value % MAddr)).1
                (s.fhe.fresh (ext.value % MAddr)).2).1.allow
              (scan s.whitelist (s.fhe.fresh (ext.value % MAddr)).1
                (s.fhe.fresh (ext.value % MAddr)).2).2.1 sender
            last := (scan s.whitelist (s.fhe.fresh (ext.value % MAddr)).1
                (s.fhe.fresh (ext.value % MAddr)).2).2.1
            hasLast := true },
          ?_, ?_, T5, T6, ?_, rfl, rfl, rfl, rfl, T9⟩
  · unfold checkWhitelist
    rw [hfe]
  · show (scan s.whitelist (s.fhe.fresh (ext.value % MAddr)).1
        (s.fhe.fresh (ext.value % MAddr)).2).1.plain
        (scan s.whitelist (s.fhe.fresh (ext.value % MAddr)).1
          (s.fhe.fresh (ext.value % MAddr)).2).2.1 = _
    rw [T4]
    exact if_congr hcond rfl rfl
  · exact allow_self _ _ _

/-- Characterisation of `checkWhitelistPublic`: like `checkWhitelist`, but
the result handle is made publicly decryptable (and the public flag is
only widened, never narrowed). -/
theorem checkWhitelistPublic_spec (s : ListCheckState) (sender : Nat) (ext : ExternalInput)
    (hwf : ∀ e ∈ s.whitelist, e.value < s.fhe.nextHandle)
    (hp : ext.validProof = true) :
    ∃ res cnt s2, checkWhitelistPublic s sender ext = .ok ((res, cnt), s2) ∧
      (s2.fhe.plain res =
        if ∃ e ∈ s.whitelist, e.active = true ∧ s.fhe.plain e.value = ext.value % MAddr
        then 1 else 0) ∧
      cnt = s.whitelist.countP (fun e => e.active) ∧
      s2.fhe.allowedThis res = true ∧
      s2.fhe.pub res = true ∧
      s2.last = res ∧ s2.hasLast = true ∧
      s2.whitelist = s.whitelist ∧ s2.owner = s.owner ∧
      (∀ h, s.fhe.pub h = true → s2.fhe.pub h = true) := by
  have hfe : s.fhe.fromExternalAddr ext = .ok (s.fhe.fresh (ext.value % MAddr)) := by
    simp [FheState.fromExternalAddr, hp]
  obtain ⟨T1, T2, T3, T4, T5, T6, T7, T8, T9⟩ :=
    scan_spec s.whitelist (s.fhe.fresh (ext.value % MAddr)).1 (s.fhe.fresh (ext.value % MAddr)).2
      (Nat.lt_succ_self _)
      (fun e hm => Nat.lt_succ_of_lt (hwf e hm))
  have hcond : (∃ e ∈ s.whitelist, e.active = true ∧
      (s.fhe.fresh (ext.value % MAddr)).2.plain e.value =
        (s.fhe.fresh (ext.value % MAddr)).2.plain (s.fhe.fresh (ext.value % MAddr)).1) ↔
      (∃ e ∈ s.whitelist, e.active = true ∧ s.fhe.plain e.value = ext.value % MAddr) :=
    exists_entry_congr
      (fun e hm => fresh_plain_ne _ _ _ (Nat.ne_of_lt (hwf e hm)))
      (fresh_plain_self _ _)
  refine ⟨(scan s.whitelist (s.fhe.fresh (ext.value % MAddr)).1
            (s.fhe.fresh (ext.value % MAddr)).2).2.1,
          (scan s.whitelist (s.fhe.fresh (ext.value % MAddr)).1
            (s.fhe.fresh (ext.value % MAddr)).2).2.2,
          { s with
            fhe := (scan s.whitelist (s.fhe.fresh (ext.value % MAddr)).1
                (s.fhe.fresh (ext.value % MAddr)).2).1.makePub
              (scan s.whitelist (s.fhe.fresh (ext.value % MAddr)).1
                (s.fhe.fresh (ext.value % MAddr)).2).2.1
            last := (scan s.whitelist (s.fhe.fresh (ext.value % MAddr)).1
                (s.fhe.fresh (ext.value % MAddr)).2).2.1
            hasLast := true },
          ?_, ?_, T5, T6, ?_, rfl, rfl, rfl, rfl, ?_⟩
  · unfold checkWhitelistPublic
    rw [hfe]
  · show (scan s.whitelist (s.fhe.fresh (ext.value % MAddr)).1
        (s.fhe.fresh (ext.value % MAddr)).2).1.plain
        (scan s.whitelist (s.fhe.fresh (ext.value % MAddr)).1
          (s.fhe.fresh (ext.value % MAddr)).2).2.1 = _
    rw [T4]
    exact if_congr hcond rfl rfl
  · exact makePub_self _ _
  · intro h hh
    apply makePub_mono
    have h2 : (scan s.whitelist (s.fhe.fresh (ext.value % MAddr)).1
        (s.fhe.fresh (ext.value % MAddr)).2).1.pub = s.fhe.pub := T9
    rw [h2]
    exact hh

theorem ite_one_zero {c : Prop} [Decidable c] {x : Nat} (h : x = if c then 1 else 0) :
    x = 1 ↔ c := by
  split_ifs at h with hc
  · rw [h]; simp [hc]
  · rw [h]; simp [hc]

/-! ## Claim theorems: PrivateListCheck -/

/-- C1: for every set and validly-proven query, `checkWhitelist` succeeds
and its result decrypts to 1 iff the plaintext of some active entry equals
the query plaintext; and the decrypted result is the same for any
permutation of the entries. -/
theorem claim_C1 (s : ListCheckState) (sender : Nat) (ext : ExternalInput)
    (hwf : ∀ e ∈ s.whitelist, e.value < s.fhe.nextHandle)
    (hp : ext.validProof = true) :
    (∃ res cnt s2, checkWhitelist s sender ext = .ok ((res, cnt), s2) ∧
      (s2.fhe.plain res = 1 ↔
        ∃ e ∈ s.whitelist, e.active = true ∧ s.fhe.plain e.value = ext.value % MAddr)) ∧
    (∀ l2, List.Perm l2 s.whitelist →
      ∀ res cnt s2 res2 cnt2 s3,
        checkWhitelist s sender ext = .ok ((res, cnt), s2) →
        checkWhitelist { s with whitelist := l2 } sender ext = .ok ((res2, cnt2), s3) →
        s2.fhe.plain res = s3.fhe.plain res2) := by
  obtain ⟨res, cnt, s2, heq, hplain, _, _, _, _, _, _, _, _⟩ :=
    checkWhitelist_spec s sender ext hwf hp
  constructor
  · exact ⟨res, cnt, s2, heq, ite_one_zero hplain⟩
  · intro l2 hperm res1 cnt1 s21 res2 cnt2 s3 h1 h2
    have hwf2 : ∀ e ∈ l2, e.value < s.fhe.nextHandle :=
      fun e hm => hwf e (hperm.subset hm)
    obtain ⟨resb, cntb, s2b, heqb, hplainb, _, _, _, _, _, _, _, _⟩ :=
      checkWhitelist_spec { s with whitelist := l2 } sender ext hwf2 hp
    rw [heq] at h1
    rw [heqb] at h2
    simp only [Except.ok.injEq, Prod.mk.injEq] at h1 h2
    obtain ⟨⟨hr1, -⟩, hs1⟩ := h1
    obtain ⟨⟨hr2, -⟩, hs2⟩ := h2
    subst hr1; subst hs1; subst hr2; subst hs2
    rw [hplain, hplainb]
    have hiff : (∃ e ∈ s.whitelist, e.active = true ∧ s.fhe.plain e.value = ext.value % MAddr) ↔
        (∃ e ∈ l2, e.active = true ∧ s.fhe.plain e.value = ext.value % MAddr) := by
      constructor
      · rintro ⟨e, hm, hrest⟩
        exact ⟨e, hperm.mem_iff.mpr hm, hrest⟩
      · rintro ⟨e, hm, hrest⟩
        exact ⟨e, hperm.subset hm, hrest⟩
    exact if_congr hiff rfl rfl

/-- Witness for C1: concrete one-entry whitelist, query equal to the
stored address. -/
theorem claim_C1_witness :
    (∀ e ∈ sW.whitelist, e.value < sW.fhe.nextHandle) ∧
    (ExternalInput.mk 5 true).validProof = true ∧
    ((∃ res cnt s2, checkWhitelist sW 3 ⟨5, true⟩ = .ok ((res, cnt), s2) ∧
      (s2.fhe.plain res = 1 ↔
        ∃ e ∈ sW.whitelist, e.active = true ∧ sW.fhe.plain e.value = 5 % MAddr)) ∧
    (∀ l2, List.Perm l2 sW.whitelist →
      ∀ res cnt s2 res2 cnt2 s3,
        checkWhitelist sW 3 ⟨5, true⟩ = .ok ((res, cnt), s2) →
        checkWhitelist { sW with whitelist := l2 } 3 ⟨5, true⟩ = .ok ((res2, cnt2), s3) →
        s2.fhe.plain res = s3.fhe.plain res2)) :=
  ⟨by decide, rfl, claim_C1 sW 3 ⟨5, true⟩ (by decide) rfl⟩

/-- C5: the scanned count returned by `checkWhitelist` equals the number
of active entries of the whitelist at call time (the length of the filter
of active entries); inactive entries are not counted. -/
theorem claim_C5 (s : ListCheckState) (sender : Nat) (ext : ExternalInput)
    (hwf : ∀ e ∈ s.whitelist, e.value < s.fhe.nextHandle)
    (hp : ext.validProof = true) :
    ∃ res cnt s2, checkWhitelist s sender ext = .ok ((res, cnt), s2) ∧
      cnt = s.whitelist.countP (fun e => e.active) ∧
      cnt = (s.whitelist.filter (fun e => e.active)).length := by
  obtain ⟨res, cnt, s2, heq, _, hcnt, _, _, _, _, _, _, _⟩ :=
    checkWhitelist_spec s sender ext hwf hp
  exact ⟨res, cnt, s2, heq, hcnt, hcnt.trans (List.countP_eq_length_filter _ _)⟩

/-- Witness for C5: on `sW` plus one inactive entry, exactly one entry is
scanned. -/
theorem claim_C5_witness :
    (∀ e ∈ sW.whitelist, e.value < sW.fhe.nextHandle) ∧
    (ExternalInput.mk 9 true).validProof = true ∧
    (∃ res cnt s2, checkWhitelist sW 4 ⟨9, true⟩ = .ok ((res, cnt), s2) ∧
      cnt = sW.whitelist.countP (fun e => e.active) ∧
      cnt = (sW.whitelist.filter (fun e => e.active)).length) :=
  ⟨by decide, rfl, claim_C5 sW 4 ⟨9, true⟩ (by decide) rfl⟩

/-- Counterexample to C4: on an empty whitelist a validly-proven check
does NOT fail with `SetNotFound` — it succeeds (scanning zero entries).
The code has no emptiness/absence check at all. -/
theorem claim_C4_counterexample :
    checkWhitelist sE 3 ⟨7, true⟩ ≠ .error Err.SetNotFound ∧
    exceptOk (checkWhitelist sE 3 ⟨7, true⟩) = true := by
  constructor
  · intro hcontra
    have hok : exceptOk (checkWhitelist sE 3 ⟨7, true⟩) = true := rfl
    rw [hcontra] at hok
    exact absurd hok (by decide)
  · rfl

/-- C4 (amended): a malformed proof makes `checkWhitelist` fail with
`InvalidProof`; with a valid proof the call always succeeds — in
particular an empty or absent set does not fail — and `InvalidProof` is
the only failure mode. -/
theorem claim_C4 (s : ListCheckState) (sender : Nat) (ext : ExternalInput) :
    (ext.validProof = false → checkWhitelist s sender ext = .error Err.InvalidProof) ∧
    (ext.validProof = true → ∃ r, checkWhitelist s sender ext = .ok r) ∧
    (∀ e2, checkWhitelist s sender ext = .error e2 → e2 = Err.InvalidProof) := by
  by_cases hv : ext.validProof = true
  · have hfe : s.fhe.fromExternalAddr ext = .ok (s.fhe.fresh (ext.value % MAddr)) := by
      simp [FheState.fromExternalAddr, hv]
    have hok : checkWhitelist s sender ext =
        .ok (((scan s.whitelist (s.fhe.fresh (ext.value % MAddr)).1
                (s.fhe.fresh (ext.value % MAddr)).2).2.1,
              (scan s.whitelist (s.fhe.fresh (ext.value % MAddr)).1
                (s.fhe.fresh (ext.value % MAddr)).2).2.2),
             { s with
               fhe := (scan s.whitelist (s.fhe.fresh (ext.value % MAddr)).1
                   (s.fhe.fresh (ext.value % MAddr)).2).1.allow
                 (scan s.whitelist (s.fhe.fresh (ext.value % MAddr)).1
                   (s.fhe.fresh (ext.value % MAddr)).2).2.1 sender
               last := (scan s.whitelist (s.fhe.fresh (ext.value % MAddr)).1
                   (s.fhe.fresh (ext.value % MAddr)).2).2.1
               hasLast := true }) := by
      unfold checkWhitelist
      rw [hfe]
    refine ⟨fun hc => absurd hv (by rw [hc]; decide), fun _ => ⟨_, hok⟩, ?_⟩
    intro e2 h
    rw [hok] at h
    exact absurd h (by simp)
  · have hv2 : ext.validProof = false := by
      cases hx : ext.validProof
      · rfl
      · exact absurd hx hv
    have hfe : s.fhe.fromExternalAddr ext = .error Err.InvalidProof := by
      simp [FheState.fromExternalAddr, hv2]
    have herr : checkWhitelist s sender ext = .error Err.InvalidProof := by
      unfold checkWhitelist
      rw [hfe]
    refine ⟨fun _ => herr, fun hc => absurd hc hv, ?_⟩
    intro e2 h
    rw [herr] at h
    simp only [Except.error.injEq] at h
    exact h.symm

/-- Witness for C4 (amended): a malformed proof fails with `InvalidProof`
and a valid proof on the empty set succeeds. -/
theorem claim_C4_witness :
    checkWhitelist sE 3 ⟨7, false⟩ = .error Err.InvalidProof ∧
    (∃ r, checkWhitelist sE 3 ⟨7, true⟩ = .ok r) :=
  ⟨(claim_C4 sE 3 ⟨7, false⟩).1 rfl, (claim_C4 sE 3 ⟨7, true⟩).2.1 rfl⟩

/-- C6: `removeFromWhitelist` (and `removeFromBlacklist`) called by the
admin fails with `OutOfBounds` when the index is at least the set length,
fails with `AlreadyRemoved` when the entry is already inactive, and
otherwise marks exactly entry `i` inactive, preserving its value, every
other entry, the set length and the rest of the state. -/
theorem claim_C6 (s : ListCheckState) (sender : Nat) (i : Nat)
    (hadmin : sender = s.owner) :
    (s.whitelist.length ≤ i → removeFromWhitelist s sender i = .error Err.OutOfBounds) ∧
    (∀ hlt : i < s.whitelist.length,
      (s.whitelist.get ⟨i, hlt⟩).active = false →
        removeFromWhitelist s sender i = .error Err.AlreadyRemoved) ∧
    (∀ hlt : i < s.whitelist.length,
      (s.whitelist.get ⟨i, hlt⟩).active = true →
      ∃ s2, removeFromWhitelist s sender i = .ok s2 ∧
        s2.whitelist.length = s.whitelist.length ∧
        (∀ hlt2 : i < s2.whitelist.length,
          (s2.whitelist.get ⟨i, hlt2⟩).active = false ∧
          (s2.whitelist.get ⟨i, hlt2⟩).value = (s.whitelist.get ⟨i, hlt⟩).value) ∧
        (∀ j, j ≠ i → ∀ hj2 : j < s2.whitelist.length, ∀ hj : j < s.whitelist.length,
          s2.whitelist.get ⟨j, hj2⟩ = s.whitelist.get ⟨j, hj⟩) ∧
        s2.blacklist = s.blacklist ∧ s2.owner = s.owner ∧ s2.fhe = s.fhe) ∧
    (s.blacklist.length ≤ i → removeFromBlacklist s sender i = .error Err.OutOfBounds) ∧
    (∀ hlt : i < s.blacklist.length,
      (s.blacklist.get ⟨i, hlt⟩).active = false →
        removeFromBlacklist s sender i = .error Err.AlreadyRemoved) ∧
    (∀ hlt : i < s.blacklist.length,
      (s.blacklist.get ⟨i, hlt⟩).active = true →
      ∃ s2, removeFromBlacklist s sender i = .ok s2 ∧
        s2.blacklist.length = s.blacklist.length ∧
        (∀ hlt2 : i < s2.blacklist.length,
          (s2.blacklist.get ⟨i, hlt2⟩).active = false ∧
          (s2.blacklist.get ⟨i, hlt2⟩).value = (s.blacklist.get ⟨i, hlt⟩).value) ∧
        (∀ j, j ≠ i → ∀ hj2 : j < s2.blacklist.length, ∀ hj : j < s.blacklist.length,
          s2.blacklist.get ⟨j, hj2⟩ = s.blacklist.get ⟨j, hj⟩) ∧
        s2.whitelist = s.whitelist ∧ s2.owner = s.owner ∧ s2.fhe = s.fhe) := by
  have hnotne : ¬ sender ≠ s.owner := by simp [hadmin]
  refine ⟨?_, ?_, ?_, ?_, ?_, ?_⟩
  · intro hge
    unfold removeFromWhitelist
    rw [if_neg hnotne, dif_neg (by omega)]
  · intro hlt hact
    unfold removeFromWhitelist
    rw [if_neg hnotne, dif_pos hlt, if_neg (by simpa using hact)]
  · intro hlt hact
    refine ⟨{ s with whitelist :=
        s.whitelist.set i ⟨(s.whitelist.get ⟨i, hlt⟩).value, false⟩ }, ?_, ?_, ?_, ?_, rfl, rfl, rfl⟩
    · unfold removeFromWhitelist
      rw [if_neg hnotne, dif_pos hlt, if_pos hact]
    · simp
    · intro hlt2
      constructor
      · rw [List.get_set_eq]
      · rw [List.get_set_eq]
    · intro j hne hj2 hj
      exact List.get_set_ne (fun hx => hne hx.symm) hj2
  · intro hge
    unfold removeFromBlacklist
    rw [if_neg hnotne, dif_neg (by omega)]
  · intro hlt hact
    unfold removeFromBlacklist
    rw [if_neg hnotne, dif_pos hlt, if_neg (by simpa using hact)]
  · intro hlt hact
    refine ⟨{ s with blacklist :=
        s.blacklist.set i ⟨(s.blacklist.get ⟨i, hlt⟩).value, false⟩ }, ?_, ?_, ?_, ?_, rfl, rfl, rfl⟩
    · unfold removeFromBlacklist
      rw [if_neg hnotne, dif_pos hlt, if_pos hact]
    · simp
    · intro hlt2
      constructor
      · rw [List.get_set_eq]
      · rw [List.get_set_eq]
    · intro j hne hj2 hj
      exact List.get_set_ne (fun hx => hne hx.symm) hj2

/-- Witness for C6: on `sW` (one active entry), out-of-bounds index 5
fails, and removing index 0 succeeds and deactivates it. -/
theorem claim_C6_witness :
    (0 : Nat) = sW.owner ∧
    (removeFromWhitelist sW 0 5 = .error Err.OutOfBounds ∧
     ∃ s2, removeFromWhitelist sW 0 0 = .ok s2 ∧
       s2.whitelist.length = sW.whitelist.length ∧
       (∀ hlt2 : 0 < s2.whitelist.length,
         (s2.whitelist.get ⟨0, hlt2⟩).active = false ∧
         (s2.whitelist.get ⟨0, hlt2⟩).value =
           (sW.whitelist.get ⟨0, by decide⟩).value) ∧
       (∀ j, j ≠ 0 → ∀ hj2 : j < s2.whitelist.length, ∀ hj : j < sW.whitelist.length,
         s2.whitelist.get ⟨j, hj2⟩ = sW.whitelist.get ⟨j, hj⟩) ∧
       s2.blacklist = sW.blacklist ∧ s2.owner = sW.owner ∧ s2.fhe = sW.fhe) :=
  ⟨rfl, (claim_C6 sW 0 5 rfl).1 (by decide),
        (claim_C6 sW 0 0 rfl).2.2.1 (by decide) (by decide)⟩

/-- Decoding a validly-proven external eaddress yields the current
allocation counter as the handle and bumps the counter. -/
theorem fromExternalAddr_ok (f : FheState) (ext : ExternalInput) (q : Nat) (f1 : FheState)
    (h : f.fromExternalAddr ext = .ok (q, f1)) :
    q = f.nextHandle ∧ f1.nextHandle = f.nextHandle + 1 := by
  unfold FheState.fromExternalAddr at h
  split at h
  · injection h with h1
    exact ⟨(congrArg Prod.fst h1).symm, (congrArg (fun p => p.2.nextHandle) h1).symm⟩
  · exact absurd h (by simp)

/-- The scan loop never lowers the allocation counter. -/
theorem scanLoop_next_mono (query : Nat) :
    ∀ (entries : List Entry) (f : FheState) (found scanned : Nat),
    f.nextHandle ≤ (scanLoop query entries f found scanned).1.nextHandle := by
  intro entries
  induction entries with
  | nil =>
    intro f found scanned
    exact Nat.le_refl _
  | cons e rest ih =>
    intro f found scanned
    by_cases ha : e.active
    · have hstep : scanLoop query (e :: rest) f found scanned =
          scanLoop query rest ((f.eqH query e.value).2.orH found (f.eqH query e.value).1).2
            ((f.eqH query e.value).2.orH found (f.eqH query e.value).1).1 (scanned + 1) := by
        simp only [scanLoop, ha, if_true]
      rw [hstep]
      have h1 := ih ((f.eqH query e.value).2.orH found (f.eqH query e.value).1).2
        ((f.eqH query e.value).2.orH found (f.eqH query e.value).1).1 (scanned + 1)
      have h2 : (((f.eqH query e.value).2.orH found (f.eqH query e.value).1).2).nextHandle
          = f.nextHandle + 2 := rfl
      omega
    · have hstep : scanLoop query (e :: rest) f found scanned =
          scanLoop query rest f found scanned := by
        simp only [scanLoop, ha, if_false, Bool.false_eq_true]
      rw [hstep]
      exact ih f found scanned

/-- The `_scan` helper never lowers the allocation counter. -/
theorem scan_next_mono (set : List Entry) (query : Nat) (f : FheState) :
    f.nextHandle ≤ (scan set query f).1.nextHandle := by
  have h1 := scanLoop_next_mono query set (f.asEbool false).2 (f.asEbool false).1 0
  have h2 : (f.asEbool false).2.nextHandle = f.nextHandle + 1 := rfl
  have h3 : (scan set query f).1.nextHandle =
      (scanLoop query set (f.asEbool false).2 (f.asEbool false).1 0).1.nextHandle := rfl
  omega

/-- A successful `addToWhitelist` appends one fresh active entry and bumps
the allocation counter. -/
theorem addToWhitelist_ok_shape (s : ListCheckState) (sender : Nat) (ext : ExternalInput)
    (idx : Nat) (s2 : ListCheckState)
    (h : addToWhitelist s sender ext = .ok (idx, s2)) :
    s2.whitelist = s.whitelist ++ [⟨s.fhe.nextHandle, true⟩] ∧
    s2.fhe.nextHandle = s.fhe.nextHandle + 1 := by
  unfold addToWhitelist at h
  split at h
  · exact absurd h (by simp)
  · split at h
    · exact absurd h (by simp)
    · rename_i enc f1 heq
      obtain ⟨hq, hf1⟩ := fromExternalAddr_ok s.fhe ext enc f1 heq
      injection h with h1
      injection h1 with hidx hs2
      subst hs2
      constructor
      · show s.whitelist ++ [⟨enc, true⟩] = s.whitelist ++ [⟨s.fhe.nextHandle, true⟩]
        rw [hq]
      · show (f1.allowThis enc).nextHandle = s.fhe.nextHandle + 1
        exact hf1

/-- A successful `addToBlacklist` leaves the whitelist unchanged and bumps
the allocation counter. -/
theorem addToBlacklist_ok_shape (s : ListCheckState) (sender : Nat) (ext : ExternalInput)
    (idx : Nat) (s2 : ListCheckState)
    (h : addToBlacklist s sender ext = .ok (idx, s2)) :
    s2.whitelist = s.whitelist ∧ s2.fhe.nextHandle = s.fhe.nextHandle + 1 := by
  unfold addToBlacklist at h
  split at h
  · exact absurd h (by simp)
  · split at h
    · exact absurd h (by simp)
    · rename_i enc f1 heq
      obtain ⟨hq, hf1⟩ := fromExternalAddr_ok s.fhe ext enc f1 heq
      injection h with h1
      injection h1 with hidx hs2
      subst hs2
      refine ⟨rfl, ?_⟩
      show (f1.allowThis enc).nextHandle = s.fhe.nextHandle + 1
      exact hf1

/-- A successful `removeFromWhitelist` is exactly a soft-delete of the
indexed entry. -/
theorem removeFromWhitelist_ok_shape (s : ListCheckState) (sender i : Nat) (s2 : ListCheckState)
    (h : removeFromWhitelist s sender i = .ok s2) :
    ∃ hlt : i < s.whitelist.length,
      s2 = { s with whitelist :=
        s.whitelist.set i ⟨(s.whitelist.get ⟨i, hlt⟩).value, false⟩ } := by
  unfold removeFromWhitelist at h
  split at h
  · exact absurd h (by simp)
  · split at h
    · rename_i hlt
      split at h
      · injection h with h1
        exact ⟨hlt, h1.symm⟩
      · exact absurd h (by simp)
    · exact absurd h (by simp)

/-- A successful `removeFromBlacklist` leaves whitelist and FHE state
unchanged. -/
theorem removeFromBlacklist_ok_shape (s : ListCheckState) (sender i : Nat) (s2 : ListCheckState)
    (h : removeFromBlacklist s sender i = .ok s2) :
    s2.whitelist = s.whitelist ∧ s2.fhe = s.fhe := by
  unfold removeFromBlacklist at h
  split at h
  · exact absurd h (by simp)
  · split at h
    · split at h
      · injection h with h1
        subst h1
        exact ⟨rfl, rfl⟩
      · exact absurd h (by simp)
    · exact absurd h (by simp)

/-- A successful `clearWhitelist` empties the whitelist and leaves the FHE
state unchanged. -/
theorem clearWhitelist_ok_shape (s : ListCheckState) (sender : Nat) (s2 : ListCheckState)
    (h : clearWhitelist s sender = .ok s2) :
    s2.whitelist = [] ∧ s2.fhe = s.fhe := by
  unfold clearWhitelist at h
  split at h
  · exact absurd h (by simp)
  · injection h with h1
    subst h1
    exact ⟨rfl, rfl⟩

/-- A successful `clearBlacklist` leaves whitelist and FHE state
unchanged. -/
theorem clearBlacklist_ok_shape (s : ListCheckState) (sender : Nat) (s2 : ListCheckState)
    (h : clearBlacklist s sender = .ok s2) :
    s2.whitelist = s.whitelist ∧ s2.fhe = s.fhe := by
  unfold clearBlacklist at h
  split at h
  · exact absurd h (by simp)
  · injection h with h1
    subst h1
    exact ⟨rfl, rfl⟩

/-- A successful `checkWhitelist` leaves the whitelist unchanged and never
lowers the allocation counter. -/
theorem checkWhitelist_ok_shape (s : ListCheckState) (sender : Nat) (ext : ExternalInput)
    (r : Nat × Nat) (s2 : ListCheckState)
    (h : checkWhitelist s sender ext = .ok (r, s2)) :
    s2.whitelist = s.whitelist ∧ s.fhe.nextHandle ≤ s2.fhe.nextHandle := by
  unfold checkWhitelist at h
  split at h
  · exact absurd h (by simp)
  · rename_i q f1 heq
    obtain ⟨hq, hf1⟩ := fromExternalAddr_ok s.fhe ext q f1 heq
    injection h with h1
    injection h1 with hr hs2
    subst hs2
    have hmono := scan_next_mono s.whitelist q f1
    refine ⟨rfl, ?_⟩
    show s.fhe.nextHandle ≤ (scan s.whitelist q f1).1.nextHandle
    omega

/-- A successful `checkWhitelistPublic` leaves the whitelist unchanged and
never lowers the allocation counter. -/
theorem checkWhitelistPublic_ok_shape (s : ListCheckState) (sender : Nat) (ext : ExternalInput)
    (r : Nat × Nat) (s2 : ListCheckState)
    (h : checkWhitelistPublic s sender ext = .ok (r, s2)) :
    s2.whitelist = s.whitelist ∧ s.fhe.nextHandle ≤ s2.fhe.nextHandle := by
  unfold checkWhitelistPublic at h
  split at h
  · exact absurd h (by simp)
  · rename_i q f1 heq
    obtain ⟨hq, hf1⟩ := fromExternalAddr_ok s.fhe ext q f1 heq
    injection h with h1
    injection h1 with hr hs2
    subst hs2
    have hmono := scan_next_mono s.whitelist q f1
    refine ⟨rfl, ?_⟩
    show s.fhe.nextHandle ≤ (scan s.whitelist q f1).1.nextHandle
    omega

/-- A successful `checkBlacklist` leaves the whitelist unchanged and never
lowers the allocation counter. -/
theorem checkBlacklist_ok_shape (s : ListCheckState) (sender : Nat) (ext : ExternalInput)
    (r : Nat × Nat) (s2 : ListCheckState)
    (h : checkBlacklist s sender ext = .ok (r, s2)) :
    s2.whitelist = s.whitelist ∧ s.fhe.nextHandle ≤ s2.fhe.nextHandle := by
  unfold checkBlacklist at h
  split at h
  · exact absurd h (by simp)
  · rename_i q f1 heq
    obtain ⟨hq, hf1⟩ := fromExternalAddr_ok s.fhe ext q f1 heq
    injection h with h1
    injection h1 with hr hs2
    subst hs2
    have hmono := scan_next_mono s.blacklist q f1
    refine ⟨rfl, ?_⟩
    show s.fhe.nextHandle ≤ (scan s.blacklist q f1).1.nextHandle
    omega

/-- A successful `checkBlacklistPublic` leaves the whitelist unchanged and
never lowers the allocation counter. -/
theorem checkBlacklistPublic_ok_shape (s : ListCheckState) (sender : Nat) (ext : ExternalInput)
    (r : Nat × Nat) (s2 : ListCheckState)
    (h : checkBlacklistPublic s sender ext = .ok (r, s2)) :
    s2.whitelist = s.whitelist ∧ s.fhe.nextHandle ≤ s2.fhe.nextHandle := by
  unfold checkBlacklistPublic at h
  split at h
  · exact absurd h (by simp)
  · rename_i q f1 heq
    obtain ⟨hq, hf1⟩ := fromExternalAddr_ok s.fhe ext q f1 heq
    injection h with h1
    injection h1 with hr hs2
    subst hs2
    have hmono := scan_next_mono s.blacklist q f1
    refine ⟨rfl, ?_⟩
    show s.fhe.nextHandle ≤ (scan s.blacklist q f1).1.nextHandle
    omega

/-- A successful `makeLastPublic` leaves the whitelist and the allocation
counter unchanged. -/
theorem makeLastPublic_ok_shape (s : ListCheckState) (s2 : ListCheckState)
    (h : makeLastPublic s = .ok s2) :
    s2.whitelist = s.whitelist ∧ s2.fhe.nextHandle = s.fhe.nextHandle := by
  unfold makeLastPublic at h
  split at h
  · exact absurd h (by simp)
  · injection h with h1
    subst h1
    exact ⟨rfl, rfl⟩

/-- A successful `transferOwnershipL` changes only the owner. -/
theorem transferOwnershipL_ok_shape (s : ListCheckState) (sender newOwner : Nat)
    (s2 : ListCheckState) (h : transferOwnershipL s sender newOwner = .ok s2) :
    s2.whitelist = s.whitelist ∧ s2.fhe = s.fhe := by
  unfold transferOwnershipL at h
  split at h
  · exact absurd h (by simp)
  · split at h
    · exact absurd h (by simp)
    · injection h with h1
      subst h1
      exact ⟨rfl, rfl⟩

/-- The soft-removed invariant transfers along any operation that keeps
the whitelist and does not lower the allocation counter. -/
theorem removedInv_of_shape (v : Nat) (s s2 : ListCheckState)
    (hwl : s2.whitelist = s.whitelist) (hnext : s.fhe.nextHandle ≤ s2.fhe.nextHandle)
    (hinv : RemovedInv v s) : RemovedInv v s2 := by
  obtain ⟨I1, I2, I3⟩ := hinv
  refine ⟨?_, by omega, ?_⟩
  · intro e hm
    rw [hwl] at hm
    have := I1 e hm
    omega
  · intro e hm
    rw [hwl] at hm
    exact I3 e hm

/-- Every successful `PrivateListCheck` transaction preserves the
soft-removed invariant: a handle once soft-removed is never again the
value of an active whitelist entry (fresh allocation makes collisions with
new entries impossible). -/
theorem lstep_inv (v : Nat) (s s2 : ListCheckState) (hst : LStep s s2)
    (hinv : RemovedInv v s) : RemovedInv v s2 := by
  obtain ⟨I1, I2, I3⟩ := hinv
  cases hst with
  | addW sender ext idx sa sb h =>
    obtain ⟨hwl, hnext⟩ := addToWhitelist_ok_shape s sender ext idx s2 h
    refine ⟨?_, by omega, ?_⟩
    · intro e hm
      rw [hwl] at hm
      rcases List.mem_append.mp hm with hm2 | hm2
      · have := I1 e hm2
        omega
      · have he : e = ⟨s.fhe.nextHandle, true⟩ := by simpa using hm2
        rw [he, hnext]
        show s.fhe.nextHandle < s.fhe.nextHandle + 1
        omega
    · intro e hm hv
      rw [hwl] at hm
      rcases List.mem_append.mp hm with hm2 | hm2
      · exact I3 e hm2 hv
      · have he : e = ⟨s.fhe.nextHandle, true⟩ := by simpa using hm2
        rw [he] at hv
        have hv2 : s.fhe.nextHandle = v := hv
        omega
  | addB sender ext idx sa sb h =>
    obtain ⟨hwl, hnext⟩ := addToBlacklist_ok_shape s sender ext idx s2 h
    exact removedInv_of_shape v s s2 hwl (by omega) ⟨I1, I2, I3⟩
  | removeW sender idx sa sb h =>
    obtain ⟨hlt, hs2⟩ := removeFromWhitelist_ok_shape s sender idx s2 h
    subst hs2
    refine ⟨?_, I2, ?_⟩
    · intro e hm
      rcases List.mem_or_eq_of_mem_set hm with hm2 | hm2
      · exact I1 e hm2
      · rw [hm2]
        show (s.whitelist.get ⟨idx, hlt⟩).value < s.fhe.nextHandle
        exact I1 _ (List.get_mem s.whitelist idx hlt)
    · intro e hm hv
      rcases List.mem_or_eq_of_mem_set hm with hm2 | hm2
      · exact I3 e hm2 hv
      · rw [hm2]
  | removeB sender idx sa sb h =>
    obtain ⟨hwl, hfhe⟩ := removeFromBlacklist_ok_shape s sender idx s2 h
    exact removedInv_of_shape v s s2 hwl (by rw [hfhe]) ⟨I1, I2, I3⟩
  | clearW sender sa sb h =>
    obtain ⟨hwl, hfhe⟩ := clearWhitelist_ok_shape s sender s2 h
    refine ⟨?_, by rw [hfhe]; exact I2, ?_⟩
    · intro e hm
      rw [hwl] at hm
      exact absurd hm (List.not_mem_nil e)
    · intro e hm
      rw [hwl] at hm
      exact absurd hm (List.not_mem_nil e)
  | clearB sender sa sb h =>
    obtain ⟨hwl, hfhe⟩ := clearBlacklist_ok_shape s sender s2 h
    exact removedInv_of_shape v s s2 hwl (by rw [hfhe]) ⟨I1, I2, I3⟩
  | checkW sender ext r sa sb h =>
    obtain ⟨hwl, hnext⟩ := checkWhitelist_ok_shape s sender ext r s2 h
    exact removedInv_of_shape v s s2 hwl hnext ⟨I1, I2, I3⟩
  | checkWP sender ext r sa sb h =>
    obtain ⟨hwl, hnext⟩ := checkWhitelistPublic_ok_shape s sender ext r s2 h
    exact removedInv_of_shape v s s2 hwl hnext ⟨I1, I2, I3⟩
  | checkB sender ext r sa sb h =>
    obtain ⟨hwl, hnext⟩ := checkBlacklist_ok_shape s sender ext r s2 h
    exact removedInv_of_shape v s s2 hwl hnext ⟨I1, I2, I3⟩
  | checkBP sender ext r sa sb h =>
    obtain ⟨hwl, hnext⟩ := checkBlacklistPublic_ok_shape s sender ext r s2 h
    exact removedInv_of_shape v s s2 hwl hnext ⟨I1, I2, I3⟩
  | makeLast sa sb h =>
    obtain ⟨hwl, hnext⟩ := makeLastPublic_ok_shape s s2 h
    exact removedInv_of_shape v s s2 hwl (by omega) ⟨I1, I2, I3⟩
  | transferL sender newOwner sa sb h =>
    obtain ⟨hwl, hfhe⟩ := transferOwnershipL_ok_shape s sender newOwner s2 h
    exact removedInv_of_shape v s s2 hwl (by rw [hfhe]) ⟨I1, I2, I3⟩

/-- The soft-removed invariant is preserved by any sequence of successful
transactions. -/
theorem lreach_inv (v : Nat) (s s2 : ListCheckState) (hreach : LReach s s2)
    (hinv : RemovedInv v s) : RemovedInv v s2 := by
  induction hreach with
  | refl => exact hinv
  | tail hsteps hstep ih => exact lstep_inv v _ _ hstep ih

/-- C7: after a successful `removeFromWhitelist` at index `i` in a state
whose entry handles are pairwise distinct (every append allocates a fresh
handle), every valid `checkWhitelist` in EVERY state reachable by further
successful transactions decrypts to 1 iff some active entry carrying a
handle other than the removed one matches the query: the removed handle
never again influences a membership result, even when the query equals
its original value. -/
theorem claim_C7 (s : ListCheckState) (admin i : Nat) (s1 : ListCheckState)
    (hwf : ∀ e ∈ s.whitelist, e.value < s.fhe.nextHandle)
    (hi : i < s.whitelist.length)
    (huniq : ∀ j : Fin s.whitelist.length, j.1 ≠ i →
      (s.whitelist.get j).value ≠ (s.whitelist.get ⟨i, hi⟩).value)
    (hrm : removeFromWhitelist s admin i = .ok s1)
    (s2 : ListCheckState) (hreach : LReach s1 s2)
    (sender : Nat) (ext : ExternalInput) (hp : ext.validProof = true) :
    ∃ res cnt s3, checkWhitelist s2 sender ext = .ok ((res, cnt), s3) ∧
      (s3.fhe.plain res = 1 ↔
        ∃ e ∈ s2.whitelist, e.active = true ∧
          e.value ≠ (s.whitelist.get ⟨i, hi⟩).value ∧
          s2.fhe.plain e.value = ext.value % MAddr) := by
  obtain ⟨hlt, hs1⟩ := removeFromWhitelist_ok_shape s admin i s1 hrm
  subst hs1
  have hinv1 : RemovedInv (s.whitelist.get ⟨i, hi⟩).value
      { s with whitelist := s.whitelist.set i ⟨(s.whitelist.get ⟨i, hlt⟩).value, false⟩ } := by
    refine ⟨?_, hwf _ (List.get_mem s.whitelist i hi), ?_⟩
    · intro e hm
      rcases List.mem_or_eq_of_mem_set hm with hm2 | hm2
      · exact hwf e hm2
      · rw [hm2]
        show (s.whitelist.get ⟨i, hlt⟩).value < s.fhe.nextHandle
        exact hwf _ (List.get_mem s.whitelist i hlt)
    · intro e hm hv
      obtain ⟨⟨j, hj⟩, hget⟩ := List.mem_iff_get.mp hm
      by_cases hji : j = i
      · subst hji
        rw [List.get_set_eq] at hget
        rw [← hget]
      · have hj2 : j < s.whitelist.length := by simpa using hj
        rw [List.get_set_ne (fun hx => hji hx.symm) hj] at hget
        have hne := huniq ⟨j, hj2⟩ hji
        rw [hget] at hne
        exact absurd hv hne
  obtain ⟨I1, I2, I3⟩ := lreach_inv _ _ s2 hreach hinv1
  obtain ⟨res, cnt, s3, heq, hplain, -, -, -, -, -, -, -, -⟩ :=
    checkWhitelist_spec s2 sender ext I1 hp
  refine ⟨res, cnt, s3, heq, ?_⟩
  rw [ite_one_zero hplain]
  constructor
  · rintro ⟨e, hm, hact, hev⟩
    refine ⟨e, hm, hact, ?_, hev⟩
    intro hveq
    have hoff := I3 e hm hveq
    rw [hact] at hoff
    exact absurd hoff (by decide)
  · rintro ⟨e, hm, hact, hne, hev⟩
    exact ⟨e, hm, hact, hev⟩

/-- Witness for C7: remove the only entry of `sW`, then query its original
value in the post-removal state (reachable by the empty sequence); the
iff holds, both sides false. -/
theorem claim_C7_witness :
    (∀ e ∈ sW.whitelist, e.value < sW.fhe.nextHandle) ∧
    (0 < sW.whitelist.length) ∧
    (∀ j : Fin sW.whitelist.length, j.1 ≠ 0 →
      (sW.whitelist.get j).value ≠ (sW.whitelist.get ⟨0, by decide⟩).value) ∧
    (∃ s1, removeFromWhitelist sW 0 0 = .ok s1 ∧
      ∃ res cnt s3, checkWhitelist s1 9 ⟨5, true⟩ = .ok ((res, cnt), s3) ∧
        (s3.fhe.plain res = 1 ↔
          ∃ e ∈ s1.whitelist, e.active = true ∧
            e.value ≠ (sW.whitelist.get ⟨0, by decide⟩).value ∧
            s1.fhe.plain e.value = 5 % MAddr)) :=
  ⟨by decide, by decide, by decide,
   ⟨_, rfl, claim_C7 sW 0 0 _ (by decide) (by decide) (by decide) rfl _
      Relation.ReflTransGen.refl 9 ⟨5, true⟩ rfl⟩⟩

/-- C9: every completing `checkWhitelist`/`checkWhitelistPublic` call
grants the contract itself access to the result handle; the private
variant grants the caller decryption access and the public variant marks
the handle publicly decryptable; both update the last-result cache. -/
theorem claim_C9 (s : ListCheckState) (sender : Nat) (ext : ExternalInput)
    (hwf : ∀ e ∈ s.whitelist, e.value < s.fhe.nextHandle)
    (hp : ext.validProof = true) :
    (∀ res cnt s2, checkWhitelist s sender ext = .ok ((res, cnt), s2) →
      s2.fhe.allowedThis res = true ∧
      s2.fhe.allowedFor res sender = true ∧
      s2.last = res ∧ s2.hasLast = true) ∧
    (∀ res cnt s2, checkWhitelistPublic s sender ext = .ok ((res, cnt), s2) →
      s2.fhe.allowedThis res = true ∧
      s2.fhe.pub res = true ∧
      s2.last = res ∧ s2.hasLast = true) := by
  constructor
  · intro res cnt s2 h
    obtain ⟨res2, cnt2, s2b, heq, _, _, hthis, hfor, hlast, hhas, _, _, _⟩ :=
      checkWhitelist_spec s sender ext hwf hp
    rw [heq] at h
    simp only [Except.ok.injEq, Prod.mk.injEq] at h
    obtain ⟨⟨hr, -⟩, hs⟩ := h
    subst hr; subst hs
    exact ⟨hthis, hfor, hlast, hhas⟩
  · intro res cnt s2 h
    obtain ⟨res2, cnt2, s2b, heq, _, _, hthis, hpub, hlast, hhas, _, _, _⟩ :=
      checkWhitelistPublic_spec s sender ext hwf hp
    rw [heq] at h
    simp only [Except.ok.injEq, Prod.mk.injEq] at h
    obtain ⟨⟨hr, -⟩, hs⟩ := h
    subst hr; subst hs
    exact ⟨hthis, hpub, hlast, hhas⟩

/-- Witness for C9 at the concrete state `sW`. -/
theorem claim_C9_witness :
    (∀ e ∈ sW.whitelist, e.value < sW.fhe.nextHandle) ∧
    ((∀ res cnt s2, checkWhitelist sW 3 ⟨5, true⟩ = .ok ((res, cnt), s2) →
      s2.fhe.allowedThis res = true ∧
      s2.fhe.allowedFor res 3 = true ∧
      s2.last = res ∧ s2.hasLast = true) ∧
    (∀ res cnt s2, checkWhitelistPublic sW 3 ⟨5, true⟩ = .ok ((res, cnt), s2) →
      s2.fhe.allowedThis res = true ∧
      s2.fhe.pub res = true ∧
      s2.last = res ∧ s2.hasLast = true)) :=
  ⟨by decide, claim_C9 sW 3 ⟨5, true⟩ (by decide) rfl⟩

/-! ## Claim support: PrivateServiceRatings -/

/-- A `submitRating` for a `(serviceId, sender)` pair that has already
rated fails with `AlreadyContributed` (the `Already rated` require). -/
theorem submitRating_dup (s1 : RatingsState) (sender serviceId : Nat) (ext : ExternalInput)
    (hex : (s1.svc serviceId).svcExists = true)
    (hr : s1.rated serviceId sender = true) :
    submitRating s1 sender serviceId ext = .error Err.AlreadyContributed := by
  unfold submitRating
  rw [if_neg (by simp [hex]), if_pos (by simp [hr])]

/-- A successful `submitRating` leaves the service existent and marks the
sender as having rated. -/
theorem submitRating_ok_state (s : RatingsState) (sender serviceId : Nat) (ext : ExternalInput)
    (s1 : RatingsState) (h : submitRating s sender serviceId ext = .ok s1) :
    (s1.svc serviceId).svcExists = true ∧ s1.rated serviceId sender = true := by
  unfold submitRating at h
  split at h
  · exact absurd h (by simp)
  · split at h
    · exact absurd h (by simp)
    · split at h
      · exact absurd h (by simp)
      · injection h with h1
        subst h1
        exact ⟨by simp, by simp⟩

set_option maxHeartbeats 2000000 in
/-- Full characterisation of a successful `submitRating` (transaction
semantics): it succeeds; the sender is recorded in the duplicate guard
(and nothing else in the guard changes); the new accumulator handles
decrypt to the old values plus the range-gated increments (the rating if
it lies in 1..5, else 0; the count increment 1 if in range, else 0), mod
2^32; plaintexts of old handles, public flags and the owner are untouched;
the sender and the contract are granted access to the new handles. -/
theorem submitRating_spec (s : RatingsState) (sender serviceId : Nat) (ext : ExternalInput)
    (hex : (s.svc serviceId).svcExists = true)
    (hnr : s.rated serviceId sender = false)
    (hp : ext.validProof = true)
    (hsum : (s.svc serviceId).sum < s.fhe.nextHandle)
    (hcnt : (s.svc serviceId).count < s.fhe.nextHandle) :
    (submitRatingTx s sender serviceId ext).2 = none ∧
    ((submitRatingTx s sender serviceId ext).1.svc serviceId).svcExists = true ∧
    (submitRatingTx s sender serviceId ext).1.rated serviceId sender = true ∧
    (∀ k p, ¬(k = serviceId ∧ p = sender) →
      (submitRatingTx s sender serviceId ext).1.rated k p = s.rated k p) ∧
    (∀ k, k ≠ serviceId → (submitRatingTx s sender serviceId ext).1.svc k = s.svc k) ∧
    (submitRatingTx s sender serviceId ext).1.owner = s.owner ∧
    (submitRatingTx s sender serviceId ext).1.fhe.plain
        ((submitRatingTx s sender serviceId ext).1.svc serviceId).sum =
      (s.fhe.plain (s.svc serviceId).sum +
        (if 1 ≤ ext.value % M32 ∧ ext.value % M32 ≤ 5 then ext.value % M32 else 0)) % M32 ∧
    (submitRatingTx s sender serviceId ext).1.fhe.plain
        ((submitRatingTx s sender serviceId ext).1.svc serviceId).count =
      (s.fhe.plain (s.svc serviceId).count +
        (if 1 ≤ ext.value % M32 ∧ ext.value % M32 ≤ 5 then 1 else 0)) % M32 ∧
    (∀ h, h < s.fhe.nextHandle →
      (submitRatingTx s sender serviceId ext).1.fhe.plain h = s.fhe.plain h) ∧
    (submitRatingTx s sender serviceId ext).1.fhe.pub = s.fhe.pub ∧
    s.fhe.nextHandle ≤ (submitRatingTx s sender serviceId ext).1.fhe.nextHandle ∧
    ((submitRatingTx s sender serviceId ext).1.svc serviceId).sum <
      (submitRatingTx s sender serviceId ext).1.fhe.nextHandle ∧
    ((submitRatingTx s sender serviceId ext).1.svc serviceId).count <
      (submitRatingTx s sender serviceId ext).1.fhe.nextHandle ∧
    (submitRatingTx s sender serviceId ext).1.fhe.allowedFor
      ((submitRatingTx s sender serviceId ext).1.svc serviceId).sum sender = true ∧
    (submitRatingTx s sender serviceId ext).1.fhe.allowedFor
      ((submitRatingTx s sender serviceId ext).1.svc serviceId).count sender = true ∧
    (submitRatingTx s sender serviceId ext).1.fhe.allowedThis
      ((submitRatingTx s sender serviceId ext).1.svc serviceId).sum = true ∧
    (submitRatingTx s sender serviceId ext).1.fhe.allowedThis
      ((submitRatingTx s sender serviceId ext).1.svc serviceId).count = true := by
  have hfe : s.fhe.fromExternal32 ext = .ok (s.fhe.fresh (ext.value % M32)) := by
    simp [FheState.fromExternal32, hp]
  have hne_0_1 : s.fhe.nextHandle ≠ s.fhe.nextHandle + 1 := by omega
  have hne_0_2 : s.fhe.nextHandle ≠ s.fhe.nextHandle + 1 + 1 := by omega
  have hne_0_3 : s.fhe.nextHandle ≠ s.fhe.nextHandle + 1 + 1 + 1 := by omega
  have hne_0_4 : s.fhe.nextHandle ≠ s.fhe.nextHandle + 1 + 1 + 1 + 1 := by omega
  have hne_0_5 : s.fhe.nextHandle ≠ s.fhe.nextHandle + 1 + 1 + 1 + 1 + 1 := by omega
  have hne_0_6 : s.fhe.nextHandle ≠ s.fhe.nextHandle + 1 + 1 + 1 + 1 + 1 + 1 := by omega
  have hne_0_7 : s.fhe.nextHandle ≠ s.fhe.nextHandle + 1 + 1 + 1 + 1 + 1 + 1 + 1 := by omega
  have hne_0_8 : s.fhe.nextHandle ≠ s.fhe.nextHandle + 1 + 1 + 1 + 1 + 1 + 1 + 1 + 1 := by omega
  have hne_0_9 : s.fhe.nextHandle ≠ s.fhe.nextHandle + 1 + 1 + 1 + 1 + 1 + 1 + 1 + 1 + 1 := by omega
  have hne_0_10 : s.fhe.nextHandle ≠ s.fhe.nextHandle + 1 + 1 + 1 + 1 + 1 + 1 + 1 + 1 + 1 + 1 := by omega
  have hne_0_11 : s.fhe.nextHandle ≠ s.fhe.nextHandle + 1 + 1 + 1 + 1 + 1 + 1 + 1 + 1 + 1 + 1 + 1 := by omega
  have hne_0_12 : s.fhe.nextHandle ≠ s.fhe.nextHandle + 1 + 1 + 1 + 1 + 1 + 1 + 1 + 1 + 1 + 1 + 1 + 1 := by omega
  have hne_0_13 : s.fhe.nextHandle ≠ s.fhe.nextHandle + 1 + 1 + 1 + 1 + 1 + 1 + 1 + 1 + 1 + 1 + 1 + 1 + 1 := by omega
  have hne_1_2 : s.fhe.nextHandle + 1 ≠ s.fhe.nextHandle + 1 + 1 := by omega
  have hne_1_3 : s.fhe.nextHandle + 1 ≠ s.fhe.nextHandle + 1 + 1 + 1 := by omega
  have hne_1_4 : s.fhe.nextHandle + 1 ≠ s.fhe.nextHandle + 1 + 1 + 1 + 1 := by omega
  have hne_1_5 : s.fhe.nextHandle + 1 ≠ s.fhe.nextHandle + 1 + 1 + 1 + 1 + 1 := by omega
  have hne_1_6 : s.fhe.nextHandle + 1 ≠ s.fhe.nextHandle + 1 + 1 + 1 + 1 + 1 + 1 := by omega
  have hne_1_7 : s.fhe.nextHandle + 1 ≠ s.fhe.nextHandle + 1 + 1 + 1 + 1 + 1 + 1 + 1 := by omega
  have hne_1_8 : s.fhe.nextHandle + 1 ≠ s.fhe.nextHandle + 1 + 1 + 1 + 1 + 1 + 1 + 1 + 1 := by omega
  have hne_1_9 : s.fhe.nextHandle + 1 ≠ s.fhe.nextHandle + 1 + 1 + 1 + 1 + 1 + 1 + 1 + 1 + 1 := by omega
  have hne_1_10 : s.fhe.nextHandle + 1 ≠ s.fhe.nextHandle + 1 + 1 + 1 + 1 + 1 + 1 + 1 + 1 + 1 + 1 := by omega
  have hne_1_11 : s.fhe.nextHandle + 1 ≠ s.fhe.nextHandle + 1 + 1 + 1 + 1 + 1 + 1 + 1 + 1 + 1 + 1 + 1 := by omega
  have hne_1_12 : s.fhe.nextHandle + 1 ≠ s.fhe.nextHandle + 1 + 1 + 1 + 1 + 1 + 1 + 1 + 1 + 1 + 1 + 1 + 1 := by omega
  have hne_1_13 : s.fhe.nextHandle + 1 ≠ s.fhe.nextHandle + 1 + 1 + 1 + 1 + 1 + 1 + 1 + 1 + 1 + 1 + 1 + 1 + 1 := by omega
  have hne_2_3 : s.fhe.nextHandle + 1 + 1 ≠ s.fhe.nextHandle + 1 + 1 + 1 := by omega
  have hne_2_4 : s.fhe.nextHandle + 1 + 1 ≠ s.fhe.nextHandle + 1 + 1 + 1 + 1 := by omega
  have hne_2_5 : s.fhe.nextHandle + 1 + 1 ≠ s.fhe.nextHandle + 1 + 1 + 1 + 1 + 1 := by omega
  have hne_2_6 : s.fhe.nextHandle + 1 + 1 ≠ s.fhe.nextHandle + 1 + 1 + 1 + 1 + 1 + 1 := by omega
  have hne_2_7 : s.fhe.nextHandle + 1 + 1 ≠ s.fhe.nextHandle + 1 + 1 + 1 + 1 + 1 + 1 + 1 := by omega
  have hne_2_8 : s.fhe.nextHandle + 1 + 1 ≠ s.fhe.nextHandle + 1 + 1 + 1 + 1 + 1 + 1 + 1 + 1 := by omega
  have hne_2_9 : s.fhe.nextHandle + 1 + 1 ≠ s.fhe.nextHandle + 1 + 1 + 1 + 1 + 1 + 1 + 1 + 1 + 1 := by omega
  have hne_2_10 : s.fhe.nextHandle + 1 + 1 ≠ s.fhe.nextHandle + 1 + 1 + 1 + 1 + 1 + 1 + 1 + 1 + 1 + 1 := by omega
  have hne_2_11 : s.fhe.nextHandle + 1 + 1 ≠ s.fhe.nextHandle + 1 + 1 + 1 + 1 + 1 + 1 + 1 + 1 + 1 + 1 + 1 := by omega
  have hne_2_12 : s.fhe.nextHandle + 1 + 1 ≠ s.fhe.nextHandle + 1 + 1 + 1 + 1 + 1 + 1 + 1 + 1 + 1 + 1 + 1 + 1 := by omega
  have hne_2_13 : s.fhe.nextHandle + 1 + 1 ≠ s.fhe.nextHandle + 1 + 1 + 1 + 1 + 1 + 1 + 1 + 1 + 1 + 1 + 1 + 1 + 1 := by omega
  have hne_3_4 : s.fhe.nextHandle + 1 + 1 + 1 ≠ s.fhe.nextHandle + 1 + 1 + 1 + 1 := by omega
  have hne_3_5 : s.fhe.nextHandle + 1 + 1 + 1 ≠ s.fhe.nextHandle + 1 + 1 + 1 + 1 + 1 := by omega
  have hne_3_6 : s.fhe.nextHandle + 1 + 1 + 1 ≠ s.fhe.nextHandle + 1 + 1 + 1 + 1 + 1 + 1 := by omega
  have hne_3_7 : s.fhe.nextHandle + 1 + 1 + 1 ≠ s.fhe.nextHandle + 1 + 1 + 1 + 1 + 1 + 1 + 1 := by omega
  have hne_3_8 : s.fhe.nextHandle + 1 + 1 + 1 ≠ s.fhe.nextHandle + 1 + 1 + 1 + 1 + 1 + 1 + 1 + 1 := by omega
  have hne_3_9 : s.fhe.nextHandle + 1 + 1 + 1 ≠ s.fhe.nextHandle + 1 + 1 + 1 + 1 + 1 + 1 + 1 + 1 + 1 := by omega
  have hne_3_10 : s.fhe.nextHandle + 1 + 1 + 1 ≠ s.fhe.nextHandle + 1 + 1 + 1 + 1 + 1 + 1 + 1 + 1 + 1 + 1 := by omega
  have hne_3_11 : s.fhe.nextHandle + 1 + 1 + 1 ≠ s.fhe.nextHandle + 1 + 1 + 1 + 1 + 1 + 1 + 1 + 1 + 1 + 1 + 1 := by omega
  have hne_3_12 : s.fhe.nextHandle + 1 + 1 + 1 ≠ s.fhe.nextHandle + 1 + 1 + 1 + 1 + 1 + 1 + 1 + 1 + 1 + 1 + 1 + 1 := by omega
  have hne_3_13 : s.fhe.nextHandle + 1 + 1 + 1 ≠ s.fhe.nextHandle + 1 + 1 + 1 + 1 + 1 + 1 + 1 + 1 + 1 + 1 + 1 + 1 + 1 := by omega
  have hne_4_5 : s.fhe.nextHandle + 1 + 1 + 1 + 1 ≠ s.fhe.nextHandle + 1 + 1 + 1 + 1 + 1 := by omega
  have hne_4_6 : s.fhe.nextHandle + 1 + 1 + 1 + 1 ≠ s.fhe.nextHandle + 1 + 1 + 1 + 1 + 1 + 1 := by omega
  have hne_4_7 : s.fhe.nextHandle + 1 + 1 + 1 + 1 ≠ s.fhe.nextHandle + 1 + 1 + 1 + 1 + 1 + 1 + 1 := by omega
  have hne_4_8 : s.fhe.nextHandle + 1 + 1 + 1 + 1 ≠ s.fhe.nextHandle + 1 + 1 + 1 + 1 + 1 + 1 + 1 + 1 := by omega
  have hne_4_9 : s.fhe.nextHandle + 1 + 1 + 1 + 1 ≠ s.fhe.nextHandle + 1 + 1 + 1 + 1 + 1 + 1 + 1 + 1 + 1 := by omega
  have hne_4_10 : s.fhe.nextHandle + 1 + 1 + 1 + 1 ≠ s.fhe.nextHandle + 1 + 1 + 1 + 1 + 1 + 1 + 1 + 1 + 1 + 1 := by omega
  have hne_4_11 : s.fhe.nextHandle + 1 + 1 + 1 + 1 ≠ s.fhe.nextHandle + 1 + 1 + 1 + 1 + 1 + 1 + 1 + 1 + 1 + 1 + 1 := by omega
  have hne_4_12 : s.fhe.nextHandle + 1 + 1 + 1 + 1 ≠ s.fhe.nextHandle + 1 + 1 + 1 + 1 + 1 + 1 + 1 + 1 + 1 + 1 + 1 + 1 := by omega
  have hne_4_13 : s.fhe.nextHandle + 1 + 1 + 1 + 1 ≠ s.fhe.nextHandle + 1 + 1 + 1 + 1 + 1 + 1 + 1 + 1 + 1 + 1 + 1 + 1 + 1 := by omega
  have hne_5_6 : s.fhe.nextHandle + 1 + 1 + 1 + 1 + 1 ≠ s.fhe.nextHandle + 1 + 1 + 1 + 1 + 1 + 1 := by omega
  have hne_5_7 : s.fhe.nextHandle + 1 + 1 + 1 + 1 + 1 ≠ s.fhe.nextHandle + 1 + 1 + 1 + 1 + 1 + 1 + 1 := by omega
  have hne_5_8 : s.fhe.nextHandle + 1 + 1 + 1 + 1 + 1 ≠ s.fhe.nextHandle + 1 + 1 + 1 + 1 + 1 + 1 + 1 + 1 := by omega
  have hne_5_9 : s.fhe.nextHandle + 1 + 1 + 1 + 1 + 1 ≠ s.fhe.nextHandle + 1 + 1 + 1 + 1 + 1 + 1 + 1 + 1 + 1 := by omega
  have hne_5_10 : s.fhe.nextHandle + 1 + 1 + 1 + 1 + 1 ≠ s.fhe.nextHandle + 1 + 1 + 1 + 1 + 1 + 1 + 1 + 1 + 1 + 1 := by omega
  have hne_5_11 : s.fhe.nextHandle + 1 + 1 + 1 + 1 + 1 ≠ s.fhe.nextHandle + 1 + 1 + 1 + 1 + 1 + 1 + 1 + 1 + 1 + 1 + 1 := by omega
  have hne_5_12 : s.fhe.nextHandle + 1 + 1 + 1 + 1 + 1 ≠ s.fhe.nextHandle + 1 + 1 + 1 + 1 + 1 + 1 + 1 + 1 + 1 + 1 + 1 + 1 := by omega
  have hne_5_13 : s.fhe.nextHandle + 1 + 1 + 1 + 1 + 1 ≠ s.fhe.nextHandle + 1 + 1 + 1 + 1 + 1 + 1 + 1 + 1 + 1 + 1 + 1 + 1 + 1 := by omega
  have hne_6_7 : s.fhe.nextHandle + 1 + 1 + 1 + 1 + 1 + 1 ≠ s.fhe.nextHandle + 1 + 1 + 1 + 1 + 1 + 1 + 1 := by omega
  have hne_6_8 : s.fhe.nextHandle + 1 + 1 + 1 + 1 + 1 + 1 ≠ s.fhe.nextHandle + 1 + 1 + 1 + 1 + 1 + 1 + 1 + 1 := by omega
  have hne_6_9 : s.fhe.nextHandle + 1 + 1 + 1 + 1 + 1 + 1 ≠ s.fhe.nextHandle + 1 + 1 + 1 + 1 + 1 + 1 + 1 + 1 + 1 := by omega
  have hne_6_10 : s.fhe.nextHandle + 1 + 1 + 1 + 1 + 1 + 1 ≠ s.fhe.nextHandle + 1 + 1 + 1 + 1 + 1 + 1 + 1 + 1 + 1 + 1 := by omega
  have hne_6_11 : s.fhe.nextHandle + 1 + 1 + 1 + 1 + 1 + 1 ≠ s.fhe.nextHandle + 1 + 1 + 1 + 1 + 1 + 1 + 1 + 1 + 1 + 1 + 1 := by omega
  have hne_6_12 : s.fhe.nextHandle + 1 + 1 + 1 + 1 + 1 + 1 ≠ s.fhe.nextHandle + 1 + 1 + 1 + 1 + 1 + 1 + 1 + 1 + 1 + 1 + 1 + 1 := by omega
  have hne_6_13 : s.fhe.nextHandle + 1 + 1 + 1 + 1 + 1 + 1 ≠ s.fhe.nextHandle + 1 + 1 + 1 + 1 + 1 + 1 + 1 + 1 + 1 + 1 + 1 + 1 + 1 := by omega
  have hne_7_8 : s.fhe.nextHandle + 1 + 1 + 1 + 1 + 1 + 1 + 1 ≠ s.fhe.nextHandle + 1 + 1 + 1 + 1 + 1 + 1 + 1 + 1 := by omega
  have hne_7_9 : s.fhe.nextHandle + 1 + 1 + 1 + 1 + 1 + 1 + 1 ≠ s.fhe.nextHandle + 1 + 1 + 1 + 1 + 1 + 1 + 1 + 1 + 1 := by omega
  have hne_7_10 : s.fhe.nextHandle + 1 + 1 + 1 + 1 + 1 + 1 + 1 ≠ s.fhe.nextHandle + 1 + 1 + 1 + 1 + 1 + 1 + 1 + 1 + 1 + 1 := by omega
  have hne_7_11 : s.fhe.nextHandle + 1 + 1 + 1 + 1 + 1 + 1 + 1 ≠ s.fhe.nextHandle + 1 + 1 + 1 + 1 + 1 + 1 + 1 + 1 + 1 + 1 + 1 := by omega
  have hne_7_12 : s.fhe.nextHandle + 1 + 1 + 1 + 1 + 1 + 1 + 1 ≠ s.fhe.nextHandle + 1 + 1 + 1 + 1 + 1 + 1 + 1 + 1 + 1 + 1 + 1 + 1 := by omega
  have hne_7_13 : s.fhe.nextHandle + 1 + 1 + 1 + 1 + 1 + 1 + 1 ≠ s.fhe.nextHandle + 1 + 1 + 1 + 1 + 1 + 1 + 1 + 1 + 1 + 1 + 1 + 1 + 1 := by omega
  have hne_8_9 : s.fhe.nextHandle + 1 + 1 + 1 + 1 + 1 + 1 + 1 + 1 ≠ s.fhe.nextHandle + 1 + 1 + 1 + 1 + 1 + 1 + 1 + 1 + 1 := by omega
  have hne_8_10 : s.fhe.nextHandle + 1 + 1 + 1 + 1 + 1 + 1 + 1 + 1 ≠ s.fhe.nextHandle + 1 + 1 + 1 + 1 + 1 + 1 + 1 + 1 + 1 + 1 := by omega
  have hne_8_11 : s.fhe.nextHandle + 1 + 1 + 1 + 1 + 1 + 1 + 1 + 1 ≠ s.fhe.nextHandle + 1 + 1 + 1 + 1 + 1 + 1 + 1 + 1 + 1 + 1 + 1 := by omega
  have hne_8_12 : s.fhe.nextHandle + 1 + 1 + 1 + 1 + 1 + 1 + 1 + 1 ≠ s.fhe.nextHandle + 1 + 1 + 1 + 1 + 1 + 1 + 1 + 1 + 1 + 1 + 1 + 1 := by omega
  have hne_8_13 : s.fhe.nextHandle + 1 + 1 + 1 + 1 + 1 + 1 + 1 + 1 ≠ s.fhe.nextHandle + 1 + 1 + 1 + 1 + 1 + 1 + 1 + 1 + 1 + 1 + 1 + 1 + 1 := by omega
  have hne_9_10 : s.fhe.nextHandle + 1 + 1 + 1 + 1 + 1 + 1 + 1 + 1 + 1 ≠ s.fhe.nextHandle + 1 + 1 + 1 + 1 + 1 + 1 + 1 + 1 + 1 + 1 := by omega
  have hne_9_11 : s.fhe.nextHandle + 1 + 1 + 1 + 1 + 1 + 1 + 1 + 1 + 1 ≠ s.fhe.nextHandle + 1 + 1 + 1 + 1 + 1 + 1 + 1 + 1 + 1 + 1 + 1 := by omega
  have hne_9_12 : s.fhe.nextHandle + 1 + 1 + 1 + 1 + 1 + 1 + 1 + 1 + 1 ≠ s.fhe.nextHandle + 1 + 1 + 1 + 1 + 1 + 1 + 1 + 1 + 1 + 1 + 1 + 1 := by omega
  have hne_9_13 : s.fhe.nextHandle + 1 + 1 + 1 + 1 + 1 + 1 + 1 + 1 + 1 ≠ s.fhe.nextHandle + 1 + 1 + 1 + 1 + 1 + 1 + 1 + 1 + 1 + 1 + 1 + 1 + 1 := by omega
  have hne_10_11 : s.fhe.nextHandle + 1 + 1 + 1 + 1 + 1 + 1 + 1 + 1 + 1 + 1 ≠ s.fhe.nextHandle + 1 + 1 + 1 + 1 + 1 + 1 + 1 + 1 + 1 + 1 + 1 := by omega
  have hne_10_12 : s.fhe.nextHandle + 1 + 1 + 1 + 1 + 1 + 1 + 1 + 1 + 1 + 1 ≠ s.fhe.nextHandle + 1 + 1 + 1 + 1 + 1 + 1 + 1 + 1 + 1 + 1 + 1 + 1 := by omega
  have hne_10_13 : s.fhe.nextHandle + 1 + 1 + 1 + 1 + 1 + 1 + 1 + 1 + 1 + 1 ≠ s.fhe.nextHandle + 1 + 1 + 1 + 1 + 1 + 1 + 1 + 1 + 1 + 1 + 1 + 1 + 1 := by omega
  have hne_11_12 : s.fhe.nextHandle + 1 + 1 + 1 + 1 + 1 + 1 + 1 + 1 + 1 + 1 + 1 ≠ s.fhe.nextHandle + 1 + 1 + 1 + 1 + 1 + 1 + 1 + 1 + 1 + 1 + 1 + 1 := by omega
  have hne_11_13 : s.fhe.nextHandle + 1 + 1 + 1 + 1 + 1 + 1 + 1 + 1 + 1 + 1 + 1 ≠ s.fhe.nextHandle + 1 + 1 + 1 + 1 + 1 + 1 + 1 + 1 + 1 + 1 + 1 + 1 + 1 := by omega
  have hne_12_13 : s.fhe.nextHandle + 1 + 1 + 1 + 1 + 1 + 1 + 1 + 1 + 1 + 1 + 1 + 1 ≠ s.fhe.nextHandle + 1 + 1 + 1 + 1 + 1 + 1 + 1 + 1 + 1 + 1 + 1 + 1 + 1 := by omega
  have hS_0 : (s.svc serviceId).sum ≠ s.fhe.nextHandle := by omega
  have hC_0 : (s.svc serviceId).count ≠ s.fhe.nextHandle := by omega
  have hS_1 : (s.svc serviceId).sum ≠ s.fhe.nextHandle + 1 := by omega
  have hC_1 : (s.svc serviceId).count ≠ s.fhe.nextHandle + 1 := by omega
  have hS_2 : (s.svc serviceId).sum ≠ s.fhe.nextHandle + 1 + 1 := by omega
  have hC_2 : (s.svc serviceId).count ≠ s.fhe.nextHandle + 1 + 1 := by omega
  have hS_3 : (s.svc serviceId).sum ≠ s.fhe.nextHandle + 1 + 1 + 1 := by omega
  have hC_3 : (s.svc serviceId).count ≠ s.fhe.nextHandle + 1 + 1 + 1 := by omega
  have hS_4 : (s.svc serviceId).sum ≠ s.fhe.nextHandle + 1 + 1 + 1 + 1 := by omega
  have hC_4 : (s.svc serviceId).count ≠ s.fhe.nextHandle + 1 + 1 + 1 + 1 := by omega
  have hS_5 : (s.svc serviceId).sum ≠ s.fhe.nextHandle + 1 + 1 + 1 + 1 + 1 := by omega
  have hC_5 : (s.svc serviceId).count ≠ s.fhe.nextHandle + 1 + 1 + 1 + 1 + 1 := by omega
  have hS_6 : (s.svc serviceId).sum ≠ s.fhe.nextHandle + 1 + 1 + 1 + 1 + 1 + 1 := by omega
  have hC_6 : (s.svc serviceId).count ≠ s.fhe.nextHandle + 1 + 1 + 1 + 1 + 1 + 1 := by omega
  have hS_7 : (s.svc serviceId).sum ≠ s.fhe.nextHandle + 1 + 1 + 1 + 1 + 1 + 1 + 1 := by omega
  have hC_7 : (s.svc serviceId).count ≠ s.fhe.nextHandle + 1 + 1 + 1 + 1 + 1 + 1 + 1 := by omega
  have hS_8 : (s.svc serviceId).sum ≠ s.fhe.nextHandle + 1 + 1 + 1 + 1 + 1 + 1 + 1 + 1 := by omega
  have hC_8 : (s.svc serviceId).count ≠ s.fhe.nextHandle + 1 + 1 + 1 + 1 + 1 + 1 + 1 + 1 := by omega
  have hS_9 : (s.svc serviceId).sum ≠ s.fhe.nextHandle + 1 + 1 + 1 + 1 + 1 + 1 + 1 + 1 + 1 := by omega
  have hC_9 : (s.svc serviceId).count ≠ s.fhe.nextHandle + 1 + 1 + 1 + 1 + 1 + 1 + 1 + 1 + 1 := by omega
  have hS_10 : (s.svc serviceId).sum ≠ s.fhe.nextHandle + 1 + 1 + 1 + 1 + 1 + 1 + 1 + 1 + 1 + 1 := by omega
  have hC_10 : (s.svc serviceId).count ≠ s.fhe.nextHandle + 1 + 1 + 1 + 1 + 1 + 1 + 1 + 1 + 1 + 1 := by omega
  have hS_11 : (s.svc serviceId).sum ≠ s.fhe.nextHandle + 1 + 1 + 1 + 1 + 1 + 1 + 1 + 1 + 1 + 1 + 1 := by omega
  have hC_11 : (s.svc serviceId).count ≠ s.fhe.nextHandle + 1 + 1 + 1 + 1 + 1 + 1 + 1 + 1 + 1 + 1 + 1 := by omega
  have hS_12 : (s.svc serviceId).sum ≠ s.fhe.nextHandle + 1 + 1 + 1 + 1 + 1 + 1 + 1 + 1 + 1 + 1 + 1 + 1 := by omega
  have hC_12 : (s.svc serviceId).count ≠ s.fhe.nextHandle + 1 + 1 + 1 + 1 + 1 + 1 + 1 + 1 + 1 + 1 + 1 + 1 := by omega
  have hS_13 : (s.svc serviceId).sum ≠ s.fhe.nextHandle + 1 + 1 + 1 + 1 + 1 + 1 + 1 + 1 + 1 + 1 + 1 + 1 + 1 := by omega
  have hC_13 : (s.svc serviceId).count ≠ s.fhe.nextHandle + 1 + 1 + 1 + 1 + 1 + 1 + 1 + 1 + 1 + 1 + 1 + 1 + 1 := by omega
  have h1m : (1 : Nat) % M32 = 1 := by norm_num [M32]
  have h5m : (5 : Nat) % M32 = 5 := by norm_num [M32]
  have h0m : (0 : Nat) % M32 = 0 := by norm_num [M32]
  unfold submitRatingTx submitRating
  rw [if_neg (by simp [hex]), if_neg (by simp [hnr]), hfe]
  refine ⟨rfl, by simp, by simp, ?_, ?_, rfl, ?_, ?_, ?_, rfl, ?_, ?_, ?_, ?_, ?_, ?_, ?_⟩
  · intro k p hkp
    simp [hkp]
  · intro k hk
    simp [hk]
  · simp only [
      FheState.selectH, FheState.addH, FheState.geH, FheState.leH, FheState.andH,
      FheState.asEuint32, FheState.fresh, FheState.allow, FheState.allowThis,
      hne_0_1, hne_0_2, hne_0_3, hne_0_4, hne_0_5, hne_0_6, hne_0_7, hne_0_8, hne_0_9,
      hne_0_10, hne_0_11, hne_0_12, hne_0_13, hne_1_2, hne_1_3, hne_1_4, hne_1_5, hne_1_6,
      hne_1_7, hne_1_8, hne_1_9, hne_1_10, hne_1_11, hne_1_12, hne_1_13, hne_2_3, hne_2_4,
      hne_2_5, hne_2_6, hne_2_7, hne_2_8, hne_2_9, hne_2_10, hne_2_11, hne_2_12, hne_2_13,
      hne_3_4, hne_3_5, hne_3_6, hne_3_7, hne_3_8, hne_3_9, hne_3_10, hne_3_11, hne_3_12,
      hne_3_13, hne_4_5, hne_4_6, hne_4_7, hne_4_8, hne_4_9, hne_4_10, hne_4_11, hne_4_12,
      hne_4_13, hne_5_6, hne_5_7, hne_5_8, hne_5_9, hne_5_10, hne_5_11, hne_5_12, hne_5_13,
      hne_6_7, hne_6_8, hne_6_9, hne_6_10, hne_6_11, hne_6_12, hne_6_13, hne_7_8, hne_7_9,
      hne_7_10, hne_7_11, hne_7_12, hne_7_13, hne_8_9, hne_8_10, hne_8_11, hne_8_12,
      hne_8_13, hne_9_10, hne_9_11, hne_9_12, hne_9_13, hne_10_11, hne_10_12, hne_10_13,
      hne_11_12, hne_11_13, hne_12_13, hS_0, hS_1, hS_2, hS_3, hS_4, hS_5, hS_6, hS_7, hS_8,
      hS_9, hS_10, hS_11, hS_12, hS_13, hC_0, hC_1, hC_2, hC_3, hC_4, hC_5, hC_6, hC_7,
      hC_8, hC_9, hC_10, hC_11, hC_12, hC_13,
      h1m, h5m, h0m,
      if_true, if_false, ite_true, ite_false, eq_self_iff_true, and_true, true_and]
    have hgoal : ∀ (x d : Nat),
        (x + if (if (if 1 ≤ d then 1 else 0) = 1 ∧ (if d ≤ 5 then 1 else 0) = 1
                 then 1 else 0) = 1 then d else 0) % M32 =
        (x + if 1 ≤ d ∧ d ≤ 5 then d else 0) % M32 := by
      intro x d
      by_cases h1 : 1 ≤ d <;> by_cases h2 : d ≤ 5 <;> simp [h1, h2]
    exact hgoal _ _
  · simp only [
      FheState.selectH, FheState.addH, FheState.geH, FheState.leH, FheState.andH,
      FheState.asEuint32, FheState.fresh, FheState.allow, FheState.allowThis,
      hne_0_1, hne_0_2, hne_0_3, hne_0_4, hne_0_5, hne_0_6, hne_0_7, hne_0_8, hne_0_9,
      hne_0_10, hne_0_11, hne_0_12, hne_0_13, hne_1_2, hne_1_3, hne_1_4, hne_1_5, hne_1_6,
      hne_1_7, hne_1_8, hne_1_9, hne_1_10, hne_1_11, hne_1_12, hne_1_13, hne_2_3, hne_2_4,
      hne_2_5, hne_2_6, hne_2_7, hne_2_8, hne_2_9, hne_2_10, hne_2_11, hne_2_12, hne_2_13,
      hne_3_4, hne_3_5, hne_3_6, hne_3_7, hne_3_8, hne_3_9, hne_3_10, hne_3_11, hne_3_12,
      hne_3_13, hne_4_5, hne_4_6, hne_4_7, hne_4_8, hne_4_9, hne_4_10, hne_4_11, hne_4_12,
      hne_4_13, hne_5_6, hne_5_7, hne_5_8, hne_5_9, hne_5_10, hne_5_11, hne_5_12, hne_5_13,
      hne_6_7, hne_6_8, hne_6_9, hne_6_10, hne_6_11, hne_6_12, hne_6_13, hne_7_8, hne_7_9,
      hne_7_10, hne_7_11, hne_7_12, hne_7_13, hne_8_9, hne_8_10, hne_8_11, hne_8_12,
      hne_8_13, hne_9_10, hne_9_11, hne_9_12, hne_9_13, hne_10_11, hne_10_12, hne_10_13,
      hne_11_12, hne_11_13, hne_12_13, hS_0, hS_1, hS_2, hS_3, hS_4, hS_5, hS_6, hS_7, hS_8,
      hS_9, hS_10, hS_11, hS_12, hS_13, hC_0, hC_1, hC_2, hC_3, hC_4, hC_5, hC_6, hC_7,
      hC_8, hC_9, hC_10, hC_11, hC_12, hC_13,
      h1m, h5m, h0m,
      if_true, if_false, ite_true, ite_false, eq_self_iff_true, and_true, true_and]
    have hgoal : ∀ (x d : Nat),
        (x + if (if (if 1 ≤ d then 1 else 0) = 1 ∧ (if d ≤ 5 then 1 else 0) = 1
                 then 1 else 0) = 1 then 1 else 0) % M32 =
        (x + if 1 ≤ d ∧ d ≤ 5 then 1 else 0) % M32 := by
      intro x d
      by_cases h1 : 1 ≤ d <;> by_cases h2 : d ≤ 5 <;> simp [h1, h2]
    exact hgoal _ _
  · intro h hh
    have hh_0 : h ≠ s.fhe.nextHandle := by omega
    have hh_1 : h ≠ s.fhe.nextHandle + 1 := by omega
    have hh_2 : h ≠ s.fhe.nextHandle + 1 + 1 := by omega
    have hh_3 : h ≠ s.fhe.nextHandle + 1 + 1 + 1 := by omega
    have hh_4 : h ≠ s.fhe.nextHandle + 1 + 1 + 1 + 1 := by omega
    have hh_5 : h ≠ s.fhe.nextHandle + 1 + 1 + 1 + 1 + 1 := by omega
    have hh_6 : h ≠ s.fhe.nextHandle + 1 + 1 + 1 + 1 + 1 + 1 := by omega
    have hh_7 : h ≠ s.fhe.nextHandle + 1 + 1 + 1 + 1 + 1 + 1 + 1 := by omega
    have hh_8 : h ≠ s.fhe.nextHandle + 1 + 1 + 1 + 1 + 1 + 1 + 1 + 1 := by omega
    have hh_9 : h ≠ s.fhe.nextHandle + 1 + 1 + 1 + 1 + 1 + 1 + 1 + 1 + 1 := by omega
    have hh_10 : h ≠ s.fhe.nextHandle + 1 + 1 + 1 + 1 + 1 + 1 + 1 + 1 + 1 + 1 := by omega
    have hh_11 : h ≠ s.fhe.nextHandle + 1 + 1 + 1 + 1 + 1 + 1 + 1 + 1 + 1 + 1 + 1 := by omega
    have hh_12 : h ≠ s.fhe.nextHandle + 1 + 1 + 1 + 1 + 1 + 1 + 1 + 1 + 1 + 1 + 1 + 1 := by omega
    have hh_13 : h ≠ s.fhe.nextHandle + 1 + 1 + 1 + 1 + 1 + 1 + 1 + 1 + 1 + 1 + 1 + 1 + 1 := by omega
    simp only [FheState.selectH, FheState.addH, FheState.geH, FheState.leH, FheState.andH,
      FheState.asEuint32, FheState.fresh, FheState.allow, FheState.allowThis,
      hh_0, hh_1, hh_2, hh_3, hh_4, hh_5, hh_6, hh_7, hh_8, hh_9, hh_10, hh_11, hh_12, hh_13,
      if_true, if_false, ite_true, ite_false, eq_self_iff_true, and_true, true_and]
  · simp only [
      FheState.selectH, FheState.addH, FheState.geH, FheState.leH, FheState.andH,
      FheState.asEuint32, FheState.fresh, FheState.allow, FheState.allowThis,
      hne_0_1, hne_0_2, hne_0_3, hne_0_4, hne_0_5, hne_0_6, hne_0_7, hne_0_8, hne_0_9,
      hne_0_10, hne_0_11, hne_0_12, hne_0_13, hne_1_2, hne_1_3, hne_1_4, hne_1_5, hne_1_6,
      hne_1_7, hne_1_8, hne_1_9, hne_1_10, hne_1_11, hne_1_12, hne_1_13, hne_2_3, hne_2_4,
      hne_2_5, hne_2_6, hne_2_7, hne_2_8, hne_2_9, hne_2_10, hne_2_11, hne_2_12, hne_2_13,
      hne_3_4, hne_3_5, hne_3_6, hne_3_7, hne_3_8, hne_3_9, hne_3_10, hne_3_11, hne_3_12,
      hne_3_13, hne_4_5, hne_4_6, hne_4_7, hne_4_8, hne_4_9, hne_4_10, hne_4_11, hne_4_12,
      hne_4_13, hne_5_6, hne_5_7, hne_5_8, hne_5_9, hne_5_10, hne_5_11, hne_5_12, hne_5_13,
      hne_6_7, hne_6_8, hne_6_9, hne_6_10, hne_6_11, hne_6_12, hne_6_13, hne_7_8, hne_7_9,
      hne_7_10, hne_7_11, hne_7_12, hne_7_13, hne_8_9, hne_8_10, hne_8_11, hne_8_12,
      hne_8_13, hne_9_10, hne_9_11, hne_9_12, hne_9_13, hne_10_11, hne_10_12, hne_10_13,
      hne_11_12, hne_11_13, hne_12_13, hS_0, hS_1, hS_2, hS_3, hS_4, hS_5, hS_6, hS_7, hS_8,
      hS_9, hS_10, hS_11, hS_12, hS_13, hC_0, hC_1, hC_2, hC_3, hC_4, hC_5, hC_6, hC_7,
      hC_8, hC_9, hC_10, hC_11, hC_12, hC_13,
      h1m, h5m, h0m,
      if_true, if_false, ite_true, ite_false, eq_self_iff_true, and_true, true_and]
    omega
  · simp only [
      FheState.selectH, FheState.addH, FheState.geH, FheState.leH, FheState.andH,
      FheState.asEuint32, FheState.fresh, FheState.allow, FheState.allowThis,
      hne_0_1, hne_0_2, hne_0_3, hne_0_4, hne_0_5, hne_0_6, hne_0_7, hne_0_8, hne_0_9,
      hne_0_10, hne_0_11, hne_0_12, hne_0_13, hne_1_2, hne_1_3, hne_1_4, hne_1_5, hne_1_6,
      hne_1_7, hne_1_8, hne_1_9, hne_1_10, hne_1_11, hne_1_12, hne_1_13, hne_2_3, hne_2_4,
      hne_2_5, hne_2_6, hne_2_7, hne_2_8, hne_2_9, hne_2_10, hne_2_11, hne_2_12, hne_2_13,
      hne_3_4, hne_3_5, hne_3_6, hne_3_7, hne_3_8, hne_3_9, hne_3_10, hne_3_11, hne_3_12,
      hne_3_13, hne_4_5, hne_4_6, hne_4_7, hne_4_8, hne_4_9, hne_4_10, hne_4_11, hne_4_12,
      hne_4_13, hne_5_6, hne_5_7, hne_5_8, hne_5_9, hne_5_10, hne_5_11, hne_5_12, hne_5_13,
      hne_6_7, hne_6_8, hne_6_9, hne_6_10, hne_6_11, hne_6_12, hne_6_13, hne_7_8, hne_7_9,
      hne_7_10, hne_7_11, hne_7_12, hne_7_13, hne_8_9, hne_8_10, hne_8_11, hne_8_12,
      hne_8_13, hne_9_10, hne_9_11, hne_9_12, hne_9_13, hne_10_11, hne_10_12, hne_10_13,
      hne_11_12, hne_11_13, hne_12_13, hS_0, hS_1, hS_2, hS_3, hS_4, hS_5, hS_6, hS_7, hS_8,
      hS_9, hS_10, hS_11, hS_12, hS_13, hC_0, hC_1, hC_2, hC_3, hC_4, hC_5, hC_6, hC_7,
      hC_8, hC_9, hC_10, hC_11, hC_12, hC_13,
      h1m, h5m, h0m,
      if_true, if_false, ite_true, ite_false, eq_self_iff_true, and_true, true_and]
    omega
  · simp only [
      FheState.selectH, FheState.addH, FheState.geH, FheState.leH, FheState.andH,
      FheState.asEuint32, FheState.fresh, FheState.allow, FheState.allowThis,
      hne_0_1, hne_0_2, hne_0_3, hne_0_4, hne_0_5, hne_0_6, hne_0_7, hne_0_8, hne_0_9,
      hne_0_10, hne_0_11, hne_0_12, hne_0_13, hne_1_2, hne_1_3, hne_1_4, hne_1_5, hne_1_6,
      hne_1_7, hne_1_8, hne_1_9, hne_1_10, hne_1_11, hne_1_12, hne_1_13, hne_2_3, hne_2_4,
      hne_2_5, hne_2_6, hne_2_7, hne_2_8, hne_2_9, hne_2_10, hne_2_11, hne_2_12, hne_2_13,
      hne_3_4, hne_3_5, hne_3_6, hne_3_7, hne_3_8, hne_3_9, hne_3_10, hne_3_11, hne_3_12,
      hne_3_13, hne_4_5, hne_4_6, hne_4_7, hne_4_8, hne_4_9, hne_4_10, hne_4_11, hne_4_12,
      hne_4_13, hne_5_6, hne_5_7, hne_5_8, hne_5_9, hne_5_10, hne_5_11, hne_5_12, hne_5_13,
      hne_6_7, hne_6_8, hne_6_9, hne_6_10, hne_6_11, hne_6_12, hne_6_13, hne_7_8, hne_7_9,
      hne_7_10, hne_7_11, hne_7_12, hne_7_13, hne_8_9, hne_8_10, hne_8_11, hne_8_12,
      hne_8_13, hne_9_10, hne_9_11, hne_9_12, hne_9_13, hne_10_11, hne_10_12, hne_10_13,
      hne_11_12, hne_11_13, hne_12_13, hS_0, hS_1, hS_2, hS_3, hS_4, hS_5, hS_6, hS_7, hS_8,
      hS_9, hS_10, hS_11, hS_12, hS_13, hC_0, hC_1, hC_2, hC_3, hC_4, hC_5, hC_6, hC_7,
      hC_8, hC_9, hC_10, hC_11, hC_12, hC_13,
      h1m, h5m, h0m,
      if_true, if_false, ite_true, ite_false, eq_self_iff_true, and_true, true_and]
    omega
  · simp only [
      FheState.selectH, FheState.addH, FheState.geH, FheState.leH, FheState.andH,
      FheState.asEuint32, FheState.fresh, FheState.allow, FheState.allowThis,
      hne_0_1, hne_0_2, hne_0_3, hne_0_4, hne_0_5, hne_0_6, hne_0_7, hne_0_8, hne_0_9,
      hne_0_10, hne_0_11, hne_0_12, hne_0_13, hne_1_2, hne_1_3, hne_1_4, hne_1_5, hne_1_6,
      hne_1_7, hne_1_8, hne_1_9, hne_1_10, hne_1_11, hne_1_12, hne_1_13, hne_2_3, hne_2_4,
      hne_2_5, hne_2_6, hne_2_7, hne_2_8, hne_2_9, hne_2_10, hne_2_11, hne_2_12, hne_2_13,
      hne_3_4, hne_3_5, hne_3_6, hne_3_7, hne_3_8, hne_3_9, hne_3_10, hne_3_11, hne_3_12,
      hne_3_13, hne_4_5, hne_4_6, hne_4_7, hne_4_8, hne_4_9, hne_4_10, hne_4_11, hne_4_12,
      hne_4_13, hne_5_6, hne_5_7, hne_5_8, hne_5_9, hne_5_10, hne_5_11, hne_5_12, hne_5_13,
      hne_6_7, hne_6_8, hne_6_9, hne_6_10, hne_6_11, hne_6_12, hne_6_13, hne_7_8, hne_7_9,
      hne_7_10, hne_7_11, hne_7_12, hne_7_13, hne_8_9, hne_8_10, hne_8_11, hne_8_12,
      hne_8_13, hne_9_10, hne_9_11, hne_9_12, hne_9_13, hne_10_11, hne_10_12, hne_10_13,
      hne_11_12, hne_11_13, hne_12_13, hS_0, hS_1, hS_2, hS_3, hS_4, hS_5, hS_6, hS_7, hS_8,
      hS_9, hS_10, hS_11, hS_12, hS_13, hC_0, hC_1, hC_2, hC_3, hC_4, hC_5, hC_6, hC_7,
      hC_8, hC_9, hC_10, hC_11, hC_12, hC_13,
      h1m, h5m, h0m,
      if_true, if_false, ite_true, ite_false, eq_self_iff_true, and_true, true_and]
  · simp only [
      FheState.selectH, FheState.addH, FheState.geH, FheState.leH, FheState.andH,
      FheState.asEuint32, FheState.fresh, FheState.allow, FheState.allowThis,
      hne_0_1, hne_0_2, hne_0_3, hne_0_4, hne_0_5, hne_0_6, hne_0_7, hne_0_8, hne_0_9,
      hne_0_10, hne_0_11, hne_0_12, hne_0_13, hne_1_2, hne_1_3, hne_1_4, hne_1_5, hne_1_6,
      hne_1_7, hne_1_8, hne_1_9, hne_1_10, hne_1_11, hne_1_12, hne_1_13, hne_2_3, hne_2_4,
      hne_2_5, hne_2_6, hne_2_7, hne_2_8, hne_2_9, hne_2_10, hne_2_11, hne_2_12, hne_2_13,
      hne_3_4, hne_3_5, hne_3_6, hne_3_7, hne_3_8, hne_3_9, hne_3_10, hne_3_11, hne_3_12,
      hne_3_13, hne_4_5, hne_4_6, hne_4_7, hne_4_8, hne_4_9, hne_4_10, hne_4_11, hne_4_12,
      hne_4_13, hne_5_6, hne_5_7, hne_5_8, hne_5_9, hne_5_10, hne_5_11, hne_5_12, hne_5_13,
      hne_6_7, hne_6_8, hne_6_9, hne_6_10, hne_6_11, hne_6_12, hne_6_13, hne_7_8, hne_7_9,
      hne_7_10, hne_7_11, hne_7_12, hne_7_13, hne_8_9, hne_8_10, hne_8_11, hne_8_12,
      hne_8_13, hne_9_10, hne_9_11, hne_9_12, hne_9_13, hne_10_11, hne_10_12, hne_10_13,
      hne_11_12, hne_11_13, hne_12_13, hS_0, hS_1, hS_2, hS_3, hS_4, hS_5, hS_6, hS_7, hS_8,
      hS_9, hS_10, hS_11, hS_12, hS_13, hC_0, hC_1, hC_2, hC_3, hC_4, hC_5, hC_6, hC_7,
      hC_8, hC_9, hC_10, hC_11, hC_12, hC_13,
      h1m, h5m, h0m,
      if_true, if_false, ite_true, ite_false, eq_self_iff_true, and_true, true_and]
  · simp only [
      FheState.selectH, FheState.addH, FheState.geH, FheState.leH, FheState.andH,
      FheState.asEuint32, FheState.fresh, FheState.allow, FheState.allowThis,
      hne_0_1, hne_0_2, hne_0_3, hne_0_4, hne_0_5, hne_0_6, hne_0_7, hne_0_8, hne_0_9,
      hne_0_10, hne_0_11, hne_0_12, hne_0_13, hne_1_2, hne_1_3, hne_1_4, hne_1_5, hne_1_6,
      hne_1_7, hne_1_8, hne_1_9, hne_1_10, hne_1_11, hne_1_12, hne_1_13, hne_2_3, hne_2_4,
      hne_2_5, hne_2_6, hne_2_7, hne_2_8, hne_2_9, hne_2_10, hne_2_11, hne_2_12, hne_2_13,
      hne_3_4, hne_3_5, hne_3_6, hne_3_7, hne_3_8, hne_3_9, hne_3_10, hne_3_11, hne_3_12,
      hne_3_13, hne_4_5, hne_4_6, hne_4_7, hne_4_8, hne_4_9, hne_4_10, hne_4_11, hne_4_12,
      hne_4_13, hne_5_6, hne_5_7, hne_5_8, hne_5_9, hne_5_10, hne_5_11, hne_5_12, hne_5_13,
      hne_6_7, hne_6_8, hne_6_9, hne_6_10, hne_6_11, hne_6_12, hne_6_13, hne_7_8, hne_7_9,
      hne_7_10, hne_7_11, hne_7_12, hne_7_13, hne_8_9, hne_8_10, hne_8_11, hne_8_12,
      hne_8_13, hne_9_10, hne_9_11, hne_9_12, hne_9_13, hne_10_11, hne_10_12, hne_10_13,
      hne_11_12, hne_11_13, hne_12_13, hS_0, hS_1, hS_2, hS_3, hS_4, hS_5, hS_6, hS_7, hS_8,
      hS_9, hS_10, hS_11, hS_12, hS_13, hC_0, hC_1, hC_2, hC_3, hC_4, hC_5, hC_6, hC_7,
      hC_8, hC_9, hC_10, hC_11, hC_12, hC_13,
      h1m, h5m, h0m,
      if_true, if_false, ite_true, ite_false, eq_self_iff_true, and_true, true_and]
  · simp only [
      FheState.selectH, FheState.addH, FheState.geH, FheState.leH, FheState.andH,
      FheState.asEuint32, FheState.fresh, FheState.allow, FheState.allowThis,
      hne_0_1, hne_0_2, hne_0_3, hne_0_4, hne_0_5, hne_0_6, hne_0_7, hne_0_8, hne_0_9,
      hne_0_10, hne_0_11, hne_0_12, hne_0_13, hne_1_2, hne_1_3, hne_1_4, hne_1_5, hne_1_6,
      hne_1_7, hne_1_8, hne_1_9, hne_1_10, hne_1_11, hne_1_12, hne_1_13, hne_2_3, hne_2_4,
      hne_2_5, hne_2_6, hne_2_7, hne_2_8, hne_2_9, hne_2_10, hne_2_11, hne_2_12, hne_2_13,
      hne_3_4, hne_3_5, hne_3_6, hne_3_7, hne_3_8, hne_3_9, hne_3_10, hne_3_11, hne_3_12,
      hne_3_13, hne_4_5, hne_4_6, hne_4_7, hne_4_8, hne_4_9, hne_4_10, hne_4_11, hne_4_12,
      hne_4_13, hne_5_6, hne_5_7, hne_5_8, hne_5_9, hne_5_10, hne_5_11, hne_5_12, hne_5_13,
      hne_6_7, hne_6_8, hne_6_9, hne_6_10, hne_6_11, hne_6_12, hne_6_13, hne_7_8, hne_7_9,
      hne_7_10, hne_7_11, hne_7_12, hne_7_13, hne_8_9, hne_8_10, hne_8_11, hne_8_12,
      hne_8_13, hne_9_10, hne_9_11, hne_9_12, hne_9_13, hne_10_11, hne_10_12, hne_10_13,
      hne_11_12, hne_11_13, hne_12_13, hS_0, hS_1, hS_2, hS_3, hS_4, hS_5, hS_6, hS_7, hS_8,
      hS_9, hS_10, hS_11, hS_12, hS_13, hC_0, hC_1, hC_2, hC_3, hC_4, hC_5, hC_6, hC_7,
      hC_8, hC_9, hC_10, hC_11, hC_12, hC_13,
      h1m, h5m, h0m,
      if_true, if_false, ite_true, ite_false, eq_self_iff_true, and_true, true_and]


set_option maxHeartbeats 1000000 in
/-- Full characterisation of `initService` (admin-only): the record is
marked existent, both accumulators are fresh handles decrypting to 0 and
contract-granted; other services, the duplicate guard, the owner, old
plaintexts and public flags are untouched. -/
theorem initService_spec (s : RatingsState) (sender serviceId : Nat)
    (hown : sender = s.owner) :
    ∃ s1, initService s sender serviceId = .ok s1 ∧
      (s1.svc serviceId).svcExists = true ∧
      s1.fhe.plain (s1.svc serviceId).sum = 0 ∧
      s1.fhe.plain (s1.svc serviceId).count = 0 ∧
      s1.rated = s.rated ∧
      s1.owner = s.owner ∧
      (∀ k, k ≠ serviceId → s1.svc k = s.svc k) ∧
      (s1.svc serviceId).sum < s1.fhe.nextHandle ∧
      (s1.svc serviceId).count < s1.fhe.nextHandle ∧
      (∀ h, h < s.fhe.nextHandle → s1.fhe.plain h = s.fhe.plain h) ∧
      s1.fhe.pub = s.fhe.pub ∧
      s1.fhe.allowedThis (s1.svc serviceId).sum = true ∧
      s1.fhe.allowedThis (s1.svc serviceId).count = true := by
  have hnotne : ¬ sender ≠ s.owner := by simp [hown]
  have hne01 : s.fhe.nextHandle ≠ s.fhe.nextHandle + 1 := by omega
  have h0m : (0 : Nat) % M32 = 0 := by norm_num [M32]
  refine ⟨{ s with
            fhe := (((s.fhe.asEuint32 0).2.asEuint32 0).2.allowThis
                (s.fhe.asEuint32 0).1).allowThis ((s.fhe.asEuint32 0).2.asEuint32 0).1
            svc := fun k => if k = serviceId then
                ⟨true, (s.fhe.asEuint32 0).1, ((s.fhe.asEuint32 0).2.asEuint32 0).1⟩
              else s.svc k },
    by unfold initService; rw [if_neg hnotne], ?_, ?_, ?_, rfl, rfl, ?_, ?_, ?_, ?_,
    rfl, ?_, ?_⟩
  · simp
  · simp only [FheState.asEuint32, FheState.fresh, FheState.allowThis, hne01, h0m,
      if_true, if_false, ite_true, ite_false, eq_self_iff_true]
  · simp only [FheState.asEuint32, FheState.fresh, FheState.allowThis, hne01, h0m,
      if_true, if_false, ite_true, ite_false, eq_self_iff_true]
  · intro k hk
    simp [hk]
  · simp only [FheState.asEuint32, FheState.fresh, FheState.allowThis,
      if_true, ite_true, eq_self_iff_true]
    omega
  · simp only [FheState.asEuint32, FheState.fresh, FheState.allowThis,
      if_true, ite_true, eq_self_iff_true]
    omega
  · intro h hh
    have hh_0 : h ≠ s.fhe.nextHandle := by omega
    have hh_1 : h ≠ s.fhe.nextHandle + 1 := by omega
    simp only [FheState.asEuint32, FheState.fresh, FheState.allowThis, hh_0, hh_1,
      if_true, if_false, ite_true, ite_false, eq_self_iff_true]
  · simp only [FheState.asEuint32, FheState.fresh, FheState.allowThis, hne01,
      if_true, if_false, ite_true, ite_false, eq_self_iff_true]
  · simp only [FheState.asEuint32, FheState.fresh, FheState.allowThis, hne01,
      if_true, if_false, ite_true, ite_false, eq_self_iff_true]

set_option maxHeartbeats 1000000 in
/-- Full characterisation of a successful `makeAggregatesPublic`
(admin-only, service must exist): the accumulators are replaced by fresh
handles `sum + 0` and `count + 0` (decrypting to the old values mod 2^32),
both contract-granted and marked publicly decryptable; previously public
handles stay public; the duplicate guard, owner, other services and old
plaintexts are untouched. -/
theorem makePublic_spec (s : RatingsState) (sender serviceId : Nat)
    (hown : sender = s.owner)
    (hex : (s.svc serviceId).svcExists = true)
    (hsum : (s.svc serviceId).sum < s.fhe.nextHandle)
    (hcnt : (s.svc serviceId).count < s.fhe.nextHandle) :
    ∃ s1, makeAggregatesPublic s sender serviceId = .ok s1 ∧
      (s1.svc serviceId).svcExists = true ∧
      s1.fhe.plain (s1.svc serviceId).sum = s.fhe.plain (s.svc serviceId).sum % M32 ∧
      s1.fhe.plain (s1.svc serviceId).count = s.fhe.plain (s.svc serviceId).count % M32 ∧
      s1.fhe.pub (s1.svc serviceId).sum = true ∧
      s1.fhe.pub (s1.svc serviceId).count = true ∧
      s1.fhe.allowedThis (s1.svc serviceId).sum = true ∧
      s1.fhe.allowedThis (s1.svc serviceId).count = true ∧
      (∀ h, s.fhe.pub h = true → s1.fhe.pub h = true) ∧
      s1.rated = s.rated ∧
      s1.owner = s.owner ∧
      (∀ k, k ≠ serviceId → s1.svc k = s.svc k) ∧
      (s1.svc serviceId).sum < s1.fhe.nextHandle ∧
      (s1.svc serviceId).count < s1.fhe.nextHandle ∧
      (∀ h, h < s.fhe.nextHandle → s1.fhe.plain h = s.fhe.plain h) := by
  have hnotne : ¬ sender ≠ s.owner := by simp [hown]
  have hnotex : ¬ (s.svc serviceId).svcExists = false := by simp [hex]
  have h0m : (0 : Nat) % M32 = 0 := by norm_num [M32]
  have hne_0_1 : s.fhe.nextHandle ≠ s.fhe.nextHandle + 1 := by omega
  have hne_0_2 : s.fhe.nextHandle ≠ s.fhe.nextHandle + 1 + 1 := by omega
  have hne_0_3 : s.fhe.nextHandle ≠ s.fhe.nextHandle + 1 + 1 + 1 := by omega
  have hne_0_4 : s.fhe.nextHandle ≠ s.fhe.nextHandle + 1 + 1 + 1 + 1 := by omega
  have hne_1_2 : s.fhe.nextHandle + 1 ≠ s.fhe.nextHandle + 1 + 1 := by omega
  have hne_1_3 : s.fhe.nextHandle + 1 ≠ s.fhe.nextHandle + 1 + 1 + 1 := by omega
  have hne_1_4 : s.fhe.nextHandle + 1 ≠ s.fhe.nextHandle + 1 + 1 + 1 + 1 := by omega
  have hne_2_3 : s.fhe.nextHandle + 1 + 1 ≠ s.fhe.nextHandle + 1 + 1 + 1 := by omega
  have hne_2_4 : s.fhe.nextHandle + 1 + 1 ≠ s.fhe.nextHandle + 1 + 1 + 1 + 1 := by omega
  have hne_3_4 : s.fhe.nextHandle + 1 + 1 + 1 ≠ s.fhe.nextHandle + 1 + 1 + 1 + 1 := by omega
  have hS_0 : (s.svc serviceId).sum ≠ s.fhe.nextHandle := by omega
  have hC_0 : (s.svc serviceId).count ≠ s.fhe.nextHandle := by omega
  have hS_1 : (s.svc serviceId).sum ≠ s.fhe.nextHandle + 1 := by omega
  have hC_1 : (s.svc serviceId).count ≠ s.fhe.nextHandle + 1 := by omega
  have hS_2 : (s.svc serviceId).sum ≠ s.fhe.nextHandle + 1 + 1 := by omega
  have hC_2 : (s.svc serviceId).count ≠ s.fhe.nextHandle + 1 + 1 := by omega
  have hS_3 : (s.svc serviceId).sum ≠ s.fhe.nextHandle + 1 + 1 + 1 := by omega
  have hC_3 : (s.svc serviceId).count ≠ s.fhe.nextHandle + 1 + 1 + 1 := by omega
  have hS_4 : (s.svc serviceId).sum ≠ s.fhe.nextHandle + 1 + 1 + 1 + 1 := by omega
  have hC_4 : (s.svc serviceId).count ≠ s.fhe.nextHandle + 1 + 1 + 1 + 1 := by omega
  refine ⟨{ s with
            fhe := ((((((((s.fhe.asEuint32 0).2.addH (s.svc serviceId).sum (s.fhe.asEuint32 0).1).2.asEuint32 0).2.addH (s.svc serviceId).count (((s.fhe.asEuint32 0).2.addH (s.svc serviceId).sum (s.fhe.asEuint32 0).1).2.asEuint32 0).1).2.allowThis
                ((s.fhe.asEuint32 0).2.addH (s.svc serviceId).sum (s.fhe.asEuint32 0).1).1).allowThis
                ((((s.fhe.asEuint32 0).2.addH (s.svc serviceId).sum (s.fhe.asEuint32 0).1).2.asEuint32 0).2.addH (s.svc serviceId).count (((s.fhe.asEuint32 0).2.addH (s.svc serviceId).sum (s.fhe.asEuint32 0).1).2.asEuint32 0).1).1).makePub
                ((s.fhe.asEuint32 0).2.addH (s.svc serviceId).sum (s.fhe.asEuint32 0).1).1).makePub
                ((((s.fhe.asEuint32 0).2.addH (s.svc serviceId).sum (s.fhe.asEuint32 0).1).2.asEuint32 0).2.addH (s.svc serviceId).count (((s.fhe.asEuint32 0).2.addH (s.svc serviceId).sum (s.fhe.asEuint32 0).1).2.asEuint32 0).1).1)
            svc := fun k => if k = serviceId then
                ⟨true, ((s.fhe.asEuint32 0).2.addH (s.svc serviceId).sum (s.fhe.asEuint32 0).1).1,
                  ((((s.fhe.asEuint32 0).2.addH (s.svc serviceId).sum (s.fhe.asEuint32 0).1).2.asEuint32 0).2.addH (s.svc serviceId).count (((s.fhe.asEuint32 0).2.addH (s.svc serviceId).sum (s.fhe.asEuint32 0).1).2.asEuint32 0).1).1⟩
              else s.svc k },
    by unfold makeAggregatesPublic; rw [if_neg hnotne, if_neg hnotex], ?_, ?_, ?_,
    ?_, ?_, ?_, ?_, ?_, rfl, rfl, ?_, ?_, ?_, ?_⟩
  · simp
  · simp only [
      FheState.addH, FheState.asEuint32, FheState.fresh, FheState.allowThis,
      FheState.makePub,
      hne_0_1, hne_0_2, hne_0_3, hne_0_4, hne_1_2, hne_1_3, hne_1_4, hne_2_3, hne_2_4, hne_3_4, hS_0, hS_1, hS_2, hS_3, hS_4, hC_0, hC_1, hC_2, hC_3, hC_4,
      h0m, Nat.add_zero,
      if_true, if_false, ite_true, ite_false, eq_self_iff_true, and_true, true_and]
  · simp only [
      FheState.addH, FheState.asEuint32, FheState.fresh, FheState.allowThis,
      FheState.makePub,
      hne_0_1, hne_0_2, hne_0_3, hne_0_4, hne_1_2, hne_1_3, hne_1_4, hne_2_3, hne_2_4, hne_3_4, hS_0, hS_1, hS_2, hS_3, hS_4, hC_0, hC_1, hC_2, hC_3, hC_4,
      h0m, Nat.add_zero,
      if_true, if_false, ite_true, ite_false, eq_self_iff_true, and_true, true_and]
  · simp only [
      FheState.addH, FheState.asEuint32, FheState.fresh, FheState.allowThis,
      FheState.makePub,
      hne_0_1, hne_0_2, hne_0_3, hne_0_4, hne_1_2, hne_1_3, hne_1_4, hne_2_3, hne_2_4, hne_3_4, hS_0, hS_1, hS_2, hS_3, hS_4, hC_0, hC_1, hC_2, hC_3, hC_4,
      h0m, Nat.add_zero,
      if_true, if_false, ite_true, ite_false, eq_self_iff_true, and_true, true_and]
  · simp only [
      FheState.addH, FheState.asEuint32, FheState.fresh, FheState.allowThis,
      FheState.makePub,
      hne_0_1, hne_0_2, hne_0_3, hne_0_4, hne_1_2, hne_1_3, hne_1_4, hne_2_3, hne_2_4, hne_3_4, hS_0, hS_1, hS_2, hS_3, hS_4, hC_0, hC_1, hC_2, hC_3, hC_4,
      h0m, Nat.add_zero,
      if_true, if_false, ite_true, ite_false, eq_self_iff_true, and_true, true_and]
  · simp only [
      FheState.addH, FheState.asEuint32, FheState.fresh, FheState.allowThis,
      FheState.makePub,
      hne_0_1, hne_0_2, hne_0_3, hne_0_4, hne_1_2, hne_1_3, hne_1_4, hne_2_3, hne_2_4, hne_3_4, hS_0, hS_1, hS_2, hS_3, hS_4, hC_0, hC_1, hC_2, hC_3, hC_4,
      h0m, Nat.add_zero,
      if_true, if_false, ite_true, ite_false, eq_self_iff_true, and_true, true_and]
  · simp only [
      FheState.addH, FheState.asEuint32, FheState.fresh, FheState.allowThis,
      FheState.makePub,
      hne_0_1, hne_0_2, hne_0_3, hne_0_4, hne_1_2, hne_1_3, hne_1_4, hne_2_3, hne_2_4, hne_3_4, hS_0, hS_1, hS_2, hS_3, hS_4, hC_0, hC_1, hC_2, hC_3, hC_4,
      h0m, Nat.add_zero,
      if_true, if_false, ite_true, ite_false, eq_self_iff_true, and_true, true_and]
  · intro h hh
    by_cases hcase1 : h = s.fhe.nextHandle + 1
    · simp [FheState.addH, FheState.asEuint32, FheState.fresh, FheState.allowThis,
        FheState.makePub, hcase1]
    · by_cases hcase3 : h = s.fhe.nextHandle + 1 + 1 + 1
      · simp [FheState.addH, FheState.asEuint32, FheState.fresh, FheState.allowThis,
          FheState.makePub, hcase3]
      · simp only [
      FheState.addH, FheState.asEuint32, FheState.fresh, FheState.allowThis,
      FheState.makePub,
      hne_0_1, hne_0_2, hne_0_3, hne_0_4, hne_1_2, hne_1_3, hne_1_4, hne_2_3, hne_2_4, hne_3_4, hS_0, hS_1, hS_2, hS_3, hS_4, hC_0, hC_1, hC_2, hC_3, hC_4,
      h0m, Nat.add_zero,
      if_true, if_false, ite_true, ite_false, eq_self_iff_true, and_true, true_and]
        simp [FheState.makePub, hcase1, hcase3, hh]
  · intro k hk
    simp [hk]
  · simp only [
      FheState.addH, FheState.asEuint32, FheState.fresh, FheState.allowThis,
      FheState.makePub,
      hne_0_1, hne_0_2, hne_0_3, hne_0_4, hne_1_2, hne_1_3, hne_1_4, hne_2_3, hne_2_4, hne_3_4, hS_0, hS_1, hS_2, hS_3, hS_4, hC_0, hC_1, hC_2, hC_3, hC_4,
      h0m, Nat.add_zero,
      if_true, if_false, ite_true, ite_false, eq_self_iff_true, and_true, true_and]
    omega
  · simp only [
      FheState.addH, FheState.asEuint32, FheState.fresh, FheState.allowThis,
      FheState.makePub,
      hne_0_1, hne_0_2, hne_0_3, hne_0_4, hne_1_2, hne_1_3, hne_1_4, hne_2_3, hne_2_4, hne_3_4, hS_0, hS_1, hS_2, hS_3, hS_4, hC_0, hC_1, hC_2, hC_3, hC_4,
      h0m, Nat.add_zero,
      if_true, if_false, ite_true, ite_false, eq_self_iff_true, and_true, true_and]
    omega
  · intro h hh
    have hh_0 : h ≠ s.fhe.nextHandle := by omega
    have hh_1 : h ≠ s.fhe.nextHandle + 1 := by omega
    have hh_2 : h ≠ s.fhe.nextHandle + 1 + 1 := by omega
    have hh_3 : h ≠ s.fhe.nextHandle + 1 + 1 + 1 := by omega
    simp only [FheState.addH, FheState.asEuint32, FheState.fresh, FheState.allowThis,
      FheState.makePub, hh_0, hh_1, hh_2, hh_3,
      if_true, if_false, ite_true, ite_false, eq_self_iff_true]

/-- A successful `initService` preserves service existence and the whole
duplicate guard. -/
theorem initService_ok_mono (s : RatingsState) (sender serviceId : Nat) (s1 : RatingsState)
    (h : initService s sender serviceId = .ok s1) (k p : Nat)
    (hex : (s.svc k).svcExists = true) (hr : s.rated k p = true) :
    (s1.svc k).svcExists = true ∧ s1.rated k p = true := by
  unfold initService at h
  split at h
  · exact absurd h (by simp)
  · injection h with h1
    subst h1
    refine ⟨?_, hr⟩
    by_cases hk : k = serviceId <;> simp [hk, hex]

/-- A successful `makeAggregatesPublic` preserves service existence and
the whole duplicate guard. -/
theorem makePublic_ok_mono (s : RatingsState) (sender serviceId : Nat) (s1 : RatingsState)
    (h : makeAggregatesPublic s sender serviceId = .ok s1) (k p : Nat)
    (hex : (s.svc k).svcExists = true) (hr : s.rated k p = true) :
    (s1.svc k).svcExists = true ∧ s1.rated k p = true := by
  unfold makeAggregatesPublic at h
  split at h
  · exact absurd h (by simp)
  · split at h
    · exact absurd h (by simp)
    · injection h with h1
      subst h1
      refine ⟨?_, hr⟩
      by_cases hk : k = serviceId <;> simp [hk, hex]

/-- A successful `submitRating` preserves service existence and only adds
to the duplicate guard. -/
theorem submitRating_ok_mono (s : RatingsState) (sender serviceId : Nat) (ext : ExternalInput)
    (s1 : RatingsState) (h : submitRating s sender serviceId ext = .ok s1) (k p : Nat)
    (hex : (s.svc k).svcExists = true) (hr : s.rated k p = true) :
    (s1.svc k).svcExists = true ∧ s1.rated k p = true := by
  unfold submitRating at h
  split at h
  · exact absurd h (by simp)
  · split at h
    · exact absurd h (by simp)
    · split at h
      · exact absurd h (by simp)
      · injection h with h1
        subst h1
        constructor
        · by_cases hk : k = serviceId <;> simp [hk, hex]
        · by_cases hkp : k = serviceId ∧ p = sender <;> simp [hkp, hr]

/-- A successful `transferOwnership` changes only the owner. -/
theorem transferOwnership_ok_mono (s : RatingsState) (sender newOwner : Nat) (s1 : RatingsState)
    (h : transferOwnership s sender newOwner = .ok s1) (k p : Nat)
    (hex : (s.svc k).svcExists = true) (hr : s.rated k p = true) :
    (s1.svc k).svcExists = true ∧ s1.rated k p = true := by
  unfold transferOwnership at h
  split at h
  · exact absurd h (by simp)
  · split at h
    · exact absurd h (by simp)
    · injection h with h1
      subst h1
      exact ⟨hex, hr⟩

/-- Across any sequence of successful transactions, an existent service
stays existent and a duplicate-guard entry stays present: the guard is
write-once. -/
theorem rreach_mono (s s2 : RatingsState) (hreach : RReach s s2) (k p : Nat)
    (hex : (s.svc k).svcExists = true) (hr : s.rated k p = true) :
    (s2.svc k).svcExists = true ∧ s2.rated k p = true := by
  induction hreach with
  | refl => exact ⟨hex, hr⟩
  | tail hsteps hstep ih =>
    obtain ⟨ihex, ihr⟩ := ih
    cases hstep with
    | init sender serviceId sa sb hop =>
      exact initService_ok_mono _ sender serviceId _ hop k p ihex ihr
    | expose sender serviceId sa sb hop =>
      exact makePublic_ok_mono _ sender serviceId _ hop k p ihex ihr
    | submit sender serviceId ext sa sb hop =>
      exact submitRating_ok_mono _ sender serviceId ext _ hop k p ihex ihr
    | transfer sender newOwner sa sb hop =>
      exact transferOwnership_ok_mono _ sender newOwner _ hop k p ihex ihr

/-! ## Claim theorems: PrivateServiceRatings -/

/-- C2: after a first succeeding `submitRating` for `(serviceId, sender)`,
every later `submitRating` for the same pair — in any state reachable by
further successful transactions — fails with `AlreadyContributed`, and as
a reverted transaction leaves the state (in particular the accumulators of
that key) unchanged. -/
theorem claim_C2 (s : RatingsState) (sender serviceId : Nat) (ext1 : ExternalInput)
    (s1 : RatingsState) (h : submitRating s sender serviceId ext1 = .ok s1)
    (s2 : RatingsState) (hreach : RReach s1 s2) (ext2 : ExternalInput) :
    submitRating s2 sender serviceId ext2 = .error Err.AlreadyContributed ∧
    submitRatingTx s2 sender serviceId ext2 = (s2, some Err.AlreadyContributed) := by
  obtain ⟨hex1, hr1⟩ := submitRating_ok_state s sender serviceId ext1 s1 h
  obtain ⟨hex2, hr2⟩ := rreach_mono s1 s2 hreach serviceId sender hex1 hr1
  have herr := submitRating_dup s2 sender serviceId ext2 hex2 hr2
  refine ⟨herr, ?_⟩
  unfold submitRatingTx
  rw [herr]

/-- Witness for C2 on the concrete state `sR`: principal 7 rates service
1 with value 4, then tries again. -/
theorem claim_C2_witness :
    ∃ s1, submitRating sR 7 1 ⟨4, true⟩ = .ok s1 ∧
      (submitRating s1 7 1 ⟨4, true⟩ = .error Err.AlreadyContributed ∧
       submitRatingTx s1 7 1 ⟨4, true⟩ = (s1, some Err.AlreadyContributed)) :=
  ⟨_, rfl, claim_C2 sR 7 1 ⟨4, true⟩ _ rfl _ Relation.ReflTransGen.refl ⟨4, true⟩⟩

/-- C3: for an initialised key and a principal that has not yet rated, a
validly-proven contribution whose decoded value lies outside [1, 5]
succeeds, leaves the decrypted sum and count unchanged, and still records
the principal in the duplicate guard, so any further contribution fails
with `AlreadyContributed`. -/
theorem claim_C3 (s : RatingsState) (sender serviceId : Nat) (ext : ExternalInput)
    (hex : (s.svc serviceId).svcExists = true)
    (hnr : s.rated serviceId sender = false)
    (hp : ext.validProof = true)
    (hsum : (s.svc serviceId).sum < s.fhe.nextHandle)
    (hcnt : (s.svc serviceId).count < s.fhe.nextHandle)
    (hps : s.fhe.plain (s.svc serviceId).sum < M32)
    (hpc : s.fhe.plain (s.svc serviceId).count < M32)
    (hout : ext.value % M32 < 1 ∨ 5 < ext.value % M32) :
    ∃ s1, submitRating s sender serviceId ext = .ok s1 ∧
      s1.fhe.plain (s1.svc serviceId).sum = s.fhe.plain (s.svc serviceId).sum ∧
      s1.fhe.plain (s1.svc serviceId).count = s.fhe.plain (s.svc serviceId).count ∧
      s1.rated serviceId sender = true ∧
      ∀ ext2, submitRating s1 sender serviceId ext2 = .error Err.AlreadyContributed := by
  obtain ⟨T1, T2, T3, -, -, -, T7, T8, -, -, -, -, -, -, -, -, -⟩ :=
    submitRating_spec s sender serviceId ext hex hnr hp hsum hcnt
  have hnotin : ¬ (1 ≤ ext.value % M32 ∧ ext.value % M32 ≤ 5) := by omega
  cases hres : submitRating s sender serviceId ext with
  | error e =>
    have hcontra : (submitRatingTx s sender serviceId ext).2 = some e := by
      unfold submitRatingTx
      rw [hres]
    rw [T1] at hcontra
    exact absurd hcontra (by simp)
  | ok s1 =>
    have hTx : submitRatingTx s sender serviceId ext = (s1, none) := by
      unfold submitRatingTx
      rw [hres]
    rw [hTx] at T2 T3 T7 T8
    simp only [if_neg hnotin, Nat.add_zero] at T7 T8
    refine ⟨s1, rfl, ?_, ?_, T3, ?_⟩
    · exact T7.trans (Nat.mod_eq_of_lt hps)
    · exact T8.trans (Nat.mod_eq_of_lt hpc)
    · intro ext2
      exact submitRating_dup s1 sender serviceId ext2 T2 T3

/-- Witness for C3: the rating 9 by principal 7 on service 1 of `sR`
succeeds but changes no decrypted accumulator and burns the slot. -/
theorem claim_C3_witness :
    ((sR.svc 1).svcExists = true ∧ sR.rated 1 7 = false ∧
     (ExternalInput.mk 9 true).validProof = true ∧
     (sR.svc 1).sum < sR.fhe.nextHandle ∧ (sR.svc 1).count < sR.fhe.nextHandle ∧
     sR.fhe.plain (sR.svc 1).sum < M32 ∧ sR.fhe.plain (sR.svc 1).count < M32 ∧
     ((9 : Nat) % M32 < 1 ∨ 5 < (9 : Nat) % M32)) ∧
    (∃ s1, submitRating sR 7 1 ⟨9, true⟩ = .ok s1 ∧
      s1.fhe.plain (s1.svc 1).sum = sR.fhe.plain (sR.svc 1).sum ∧
      s1.fhe.plain (s1.svc 1).count = sR.fhe.plain (sR.svc 1).count ∧
      s1.rated 1 7 = true ∧
      ∀ ext2, submitRating s1 7 1 ext2 = .error Err.AlreadyContributed) :=
  ⟨⟨by decide, rfl, rfl, by decide, by decide, by decide, by decide, by decide⟩,
   claim_C3 sR 7 1 ⟨9, true⟩ (by decide) rfl rfl (by decide) (by decide)
     (by decide) (by decide) (by decide)⟩

/-- C8: for an initialised key, `makeAggregatesPublic` succeeds, replaces
the accumulators by fresh handles with unchanged decrypted values, marks
both publicly decryptable (and contract-accessible), never turns a public
handle private again, and a second call has the same effect — the
decrypted values stay fixed and the stored accumulators stay public. -/
theorem claim_C8 (s : RatingsState) (sender serviceId : Nat)
    (hown : sender = s.owner)
    (hex : (s.svc serviceId).svcExists = true)
    (hsum : (s.svc serviceId).sum < s.fhe.nextHandle)
    (hcnt : (s.svc serviceId).count < s.fhe.nextHandle)
    (hps : s.fhe.plain (s.svc serviceId).sum < M32)
    (hpc : s.fhe.plain (s.svc serviceId).count < M32) :
    ∃ s1, makeAggregatesPublic s sender serviceId = .ok s1 ∧
      s1.fhe.plain (s1.svc serviceId).sum = s.fhe.plain (s.svc serviceId).sum ∧
      s1.fhe.plain (s1.svc serviceId).count = s.fhe.plain (s.svc serviceId).count ∧
      s1.fhe.pub (s1.svc serviceId).sum = true ∧
      s1.fhe.pub (s1.svc serviceId).count = true ∧
      s1.fhe.allowedThis (s1.svc serviceId).sum = true ∧
      s1.fhe.allowedThis (s1.svc serviceId).count = true ∧
      (∀ h, s.fhe.pub h = true → s1.fhe.pub h = true) ∧
      ∃ s2, makeAggregatesPublic s1 sender serviceId = .ok s2 ∧
        s2.fhe.plain (s2.svc serviceId).sum = s.fhe.plain (s.svc serviceId).sum ∧
        s2.fhe.plain (s2.svc serviceId).count = s.fhe.plain (s.svc serviceId).count ∧
        s2.fhe.pub (s2.svc serviceId).sum = true ∧
        s2.fhe.pub (s2.svc serviceId).count = true ∧
        (∀ h, s1.fhe.pub h = true → s2.fhe.pub h = true) := by
  obtain ⟨s1, heq1, hex1, hpl1s, hpl1c, hpub1s, hpub1c, hat1s, hat1c, hmono1, -, hown1, -,
    hb1s, hb1c, -⟩ := makePublic_spec s sender serviceId hown hex hsum hcnt
  have h1s : s1.fhe.plain (s1.svc serviceId).sum = s.fhe.plain (s.svc serviceId).sum :=
    hpl1s.trans (Nat.mod_eq_of_lt hps)
  have h1c : s1.fhe.plain (s1.svc serviceId).count = s.fhe.plain (s.svc serviceId).count :=
    hpl1c.trans (Nat.mod_eq_of_lt hpc)
  obtain ⟨s2, heq2, -, hpl2s, hpl2c, hpub2s, hpub2c, -, -, hmono2, -, -, -, -, -, -⟩ :=
    makePublic_spec s1 sender serviceId (by rw [hown, ← hown1]) hex1 hb1s hb1c
  refine ⟨s1, heq1, h1s, h1c, hpub1s, hpub1c, hat1s, hat1c, hmono1,
    s2, heq2, ?_, ?_, hpub2s, hpub2c, hmono2⟩
  · rw [hpl2s, h1s, Nat.mod_eq_of_lt hps]
  · rw [hpl2c, h1c, Nat.mod_eq_of_lt hpc]

/-- Witness for C8 on `sR` (admin is principal 0). -/
theorem claim_C8_witness :
    ((0 : Nat) = sR.owner ∧ (sR.svc 1).svcExists = true ∧
     (sR.svc 1).sum < sR.fhe.nextHandle ∧ (sR.svc 1).count < sR.fhe.nextHandle ∧
     sR.fhe.plain (sR.svc 1).sum < M32 ∧ sR.fhe.plain (sR.svc 1).count < M32) ∧
    (∃ s1, makeAggregatesPublic sR 0 1 = .ok s1 ∧
      s1.fhe.plain (s1.svc 1).sum = sR.fhe.plain (sR.svc 1).sum ∧
      s1.fhe.plain (s1.svc 1).count = sR.fhe.plain (sR.svc 1).count ∧
      s1.fhe.pub (s1.svc 1).sum = true ∧
      s1.fhe.pub (s1.svc 1).count = true ∧
      s1.fhe.allowedThis (s1.svc 1).sum = true ∧
      s1.fhe.allowedThis (s1.svc 1).count = true ∧
      (∀ h, sR.fhe.pub h = true → s1.fhe.pub h = true) ∧
      ∃ s2, makeAggregatesPublic s1 0 1 = .ok s2 ∧
        s2.fhe.plain (s2.svc 1).sum = sR.fhe.plain (sR.svc 1).sum ∧
        s2.fhe.plain (s2.svc 1).count = sR.fhe.plain (sR.svc 1).count ∧
        s2.fhe.pub (s2.svc 1).sum = true ∧
        s2.fhe.pub (s2.svc 1).count = true ∧
        (∀ h, s1.fhe.pub h = true → s2.fhe.pub h = true)) :=
  ⟨⟨rfl, by decide, by decide, by decide, by decide, by decide⟩,
   claim_C8 sR 0 1 rfl (by decide) (by decide) (by decide) (by decide) (by decide)⟩

/-- C10: re-initialising an already-initialised key resets the decrypted
accumulators to zero but leaves the duplicate guard untouched: a principal
recorded before the re-initialisation still fails with
`AlreadyContributed` afterwards. -/
theorem claim_C10 (s : RatingsState) (sender serviceId p : Nat)
    (hown : sender = s.owner)
    (hex : (s.svc serviceId).svcExists = true)
    (hr : s.rated serviceId p = true) :
    ∃ s1, initService s sender serviceId = .ok s1 ∧
      s1.fhe.plain (s1.svc serviceId).sum = 0 ∧
      s1.fhe.plain (s1.svc serviceId).count = 0 ∧
      s1.rated = s.rated ∧
      hasRated s1 serviceId p = true ∧
      ∀ ext, submitRating s1 p serviceId ext = .error Err.AlreadyContributed := by
  obtain ⟨s1, heq, hex1, hsum0, hcnt0, hrat, -, -, -, -, -, -, -, -⟩ :=
    initService_spec s sender serviceId hown
  refine ⟨s1, heq, hsum0, hcnt0, hrat, ?_, ?_⟩
  · unfold hasRated
    rw [hrat]
    exact hr
  · intro ext
    exact submitRating_dup s1 p serviceId ext hex1 (by rw [hrat]; exact hr)

/-- Witness for C10 on `sR2` (service 1 initialised, principal 7 already
recorded in the duplicate guard). -/
theorem claim_C10_witness :
    ((0 : Nat) = sR2.owner ∧ (sR2.svc 1).svcExists = true ∧ sR2.rated 1 7 = true) ∧
    (∃ s1, initService sR2 0 1 = .ok s1 ∧
      s1.fhe.plain (s1.svc 1).sum = 0 ∧
      s1.fhe.plain (s1.svc 1).count = 0 ∧
      s1.rated = sR2.rated ∧
      hasRated s1 1 7 = true ∧
      ∀ ext, submitRating s1 7 1 ext = .error Err.AlreadyContributed) :=
  ⟨⟨rfl, by decide, by decide⟩, claim_C10 sR2 0 1 7 rfl (by decide) (by decide)⟩
